import Mathlib

/-!
Verification development for the multi-agent consensus core of the
qwen-swarm repository (src/qwen_agi_system/core/multi_agent_consensus_system.py,
data model in src/qwen_agi_system/core/ten_agent_architecture.py).

The Python code is embedded shallowly:
  - float confidences and scores become exact rationals (ℚ);
  - Python dicts keyed by agent role become association lists
    `List (AgentRole × _)` in insertion order (a Python dict iterates in
    insertion order and has unique keys; key-uniqueness is carried as a
    hypothesis where a statement needs it);
  - code that raises becomes `Except String _`, the error string naming the
    Python exception;
  - timestamps and the time-derived `insight_id` / `deliberation_id` strings
    are not modelled (no claim mentions them); text synthesis of the
    `synthesized_content` markdown is likewise outside the model, while the
    `reasoning` annotations made by the conflict resolver are modelled
    verbatim because a claim refers to them.

Methods that are referenced by the source but missing from the repository
(the voting-method implementations and several strategy helper methods) are
modelled from the specification; each such definition carries a doc comment
starting with `Modelled from the spec:`.
-/

set_option maxHeartbeats 1000000

deriving instance DecidableEq for Except

namespace QwenSwarm

/-- AgentRole enum from ten_agent_architecture.py (10 specialist roles). -/
inductive AgentRole where
  | queen_coordinator
  | code_architect
  | security_specialist
  | performance_optimizer
  | ui_ux_designer
  | integration_expert
  | testing_quality
  | documentation_tech_writer
  | data_analytics
  | innovation_strategist
deriving DecidableEq, Repr

/-- The `.value` string of each AgentRole member. -/
def AgentRole.value : AgentRole → String
  | .queen_coordinator => "queen_coordinator"
  | .code_architect => "code_architect"
  | .security_specialist => "security_specialist"
  | .performance_optimizer => "performance_optimizer"
  | .ui_ux_designer => "ui_ux_designer"
  | .integration_expert => "integration_expert"
  | .testing_quality => "testing_quality"
  | .documentation_tech_writer => "documentation_tech_writer"
  | .data_analytics => "data_analytics"
  | .innovation_strategist => "innovation_strategist"

/-- ConsensusLevel enum from ten_agent_architecture.py. -/
inductive ConsensusLevel where
  | unanimous
  | majority_super
  | majority_strong
  | majority_simple
  | plurality
  | specialist_override
deriving DecidableEq, Repr

/-- ConsensusStrategy enum from multi_agent_consensus_system.py. -/
inductive ConsensusStrategy where
  | weighted_voting
  | specialist_authority
  | evidence_based
  | collaborative_synthesis
  | iterative_refinement
  | conflict_resolution
  | emergent_agreement
  | hybrid_adaptive
deriving DecidableEq, Repr

/-- VotingMethod enum from multi_agent_consensus_system.py. -/
inductive VotingMethod where
  | simple_majority
  | super_majority
  | qualified_majority
  | unanimous
  | weighted_consensus
  | condorcet
  | borda_count
  | approval_voting
deriving DecidableEq, Repr

/-- ConflictType enum from multi_agent_consensus_system.py. -/
inductive ConflictType where
  | factual_disagreement
  | methodological_conflict
  | priority_disagreement
  | resource_allocation
  | strategic_divergence
  | expertise_claim
  | value_conflict
deriving DecidableEq, Repr

/-- AgentThought dataclass (ten_agent_architecture.py): the fields the
consensus core reads.  `agent_id`, `thought_id`, `timestamp`, `dependencies`
and `alternatives` are never inspected by the consensus logic and are left
out of the model. -/
structure AgentThought where
  agent_role : AgentRole
  content : String
  reasoning : String
  confidence : ℚ
  evidence : List String
deriving DecidableEq, Repr

/-- CollectiveInsight dataclass (ten_agent_architecture.py); the time-derived
`insight_id` and the synthesized markdown text are not modelled. -/
structure CollectiveInsight where
  contributing_agents : List AgentRole
  consensus_level : ConsensusLevel
  confidence_score : ℚ
  conflicting_views : List (AgentRole × String) := []
  synthesis_method : String := "weighted_consensus"
deriving DecidableEq, Repr

/-- A Python dict `Dict[AgentRole, AgentThought]` in insertion order. -/
abbrev ThoughtMap := List (AgentRole × AgentThought)

/-- The keys of a thought map, in insertion order. -/
def rolesOf (m : ThoughtMap) : List AgentRole := m.map Prod.fst

/-- Python `str.lower()` (the source only ever lowercases ASCII text). -/
def pyLower (s : String) : String := String.mk (s.toList.map Char.toLower)

/-- Whether the first character list starts the second. -/
def startsWithChars : List Char → List Char → Bool
  | [], _ => true
  | _ :: _, [] => false
  | c :: cs, d :: ds => c = d && startsWithChars cs ds

/-- Whether the needle occurs contiguously in the haystack. -/
def hasSubChars (needle : List Char) : List Char → Bool
  | [] => startsWithChars needle []
  | c :: cs => startsWithChars needle (c :: cs) || hasSubChars needle cs

/-- Python substring test `needle in hay` for strings. -/
def strContains (hay needle : String) : Bool := hasSubChars needle.toList hay.toList

/-- Accumulator loop for `pyWords`: `current` is the word being read. -/
def wordsAux (current : List Char) : List Char → List String
  | [] => if current = [] then [] else [String.mk current]
  | c :: cs =>
    if c.isWhitespace then
      (if current = [] then [] else [String.mk current]) ++ wordsAux [] cs
    else wordsAux (current ++ [c]) cs

/-- Python `str.split()`: split on whitespace runs, dropping empty pieces. -/
def pyWords (s : String) : List String := wordsAux [] s.toList

/-- Python `np.mean` of a list of rationals (the embedding only applies it
to nonempty lists; each call site that could see an empty list in Python is
handled explicitly there). -/
def meanQ (xs : List ℚ) : ℚ := xs.sum / xs.length

/-- Python `max` over a nonempty list (0 on the empty list, which Python
guards against at every call site embedded here). -/
def listMaxQ : List ℚ → ℚ
  | [] => 0
  | x :: xs => xs.foldl max x

/-- Clamp a rational into [0,1]; the spec (§3) keeps every confidence value
clamped to [0,1] after every transformation. -/
def clamp01 (x : ℚ) : ℚ := min 1 (max 0 x)

/-- First value stored under a role, like Python dict lookup (dict keys are
unique, so first = only). -/
def findThought : ThoughtMap → AgentRole → Option AgentThought
  | [], _ => none
  | p :: rest, r => if p.1 = r then some p.2 else findThought rest r

/-- Python dict assignment `m[r] = t` for a key already present: every entry
stored under `r` is replaced (there is exactly one when keys are unique). -/
def updateThought (m : ThoughtMap) (r : AgentRole) (t : AgentThought) : ThoughtMap :=
  m.map (fun p => if p.1 = r then (p.1, t) else p)

/-! ## EvidenceEvaluator (multi_agent_consensus_system.py lines 1265-1307) -/

/-- Specificity keyword list of `_evaluate_single_evidence`. -/
def specificityKeywords : List String :=
  ["data", "metric", "measurement", "specific", "example", "study", "research"]

/-- Number of specificity keywords occurring in the lowercased evidence text. -/
def specificityCount (evidence : String) : ℕ :=
  (specificityKeywords.filter (fun k => strContains (pyLower evidence) k)).length

/-- `_evaluate_single_evidence`: 0.0 for an empty item, otherwise base 0.5
plus a length factor `min(1, len/100) * 0.2` plus `0.1` per specificity
keyword hit, capped at 1.0. -/
def evaluateSingleEvidence (evidence : String) : ℚ :=
  if evidence = "" then 0
  else
    let lengthScore : ℚ := min 1 ((evidence.length : ℚ) / 100)
    let qualityScore : ℚ := 1/2 + lengthScore * (1/5) + (specificityCount evidence : ℚ) * (1/10)
    min 1 qualityScore

/-- Per-agent body of `evaluate_evidence_quality`: 0.0 for an empty evidence
list, otherwise the mean of the single-item scores. -/
def perAgentEvidenceScore (evidenceList : List String) : ℚ :=
  if evidenceList = [] then 0
  else meanQ (evidenceList.map evaluateSingleEvidence)

/-- `EvidenceEvaluator.evaluate_evidence_quality` over the evidence registry. -/
def evaluateEvidenceQuality (registry : List (AgentRole × List String)) :
    List (AgentRole × ℚ) :=
  registry.map (fun p => (p.1, perAgentEvidenceScore p.2))

/-! ## ConflictDetector (lines 985-1085) -/

/-- Antonym table of `_are_opposite_positions`. -/
def oppositeKeywords : List (String × String) :=
  [("yes", "no"), ("true", "false"), ("implement", "avoid"),
   ("enable", "disable"), ("include", "exclude"), ("add", "remove")]

/-- `_are_opposite_positions`: some antonym pair appears with one word in
each content, in either direction. -/
def areOppositePositions (content1 content2 : String) : Bool :=
  oppositeKeywords.any (fun p =>
    (strContains (pyLower content1) p.1 && strContains (pyLower content2) p.2) ||
    (strContains (pyLower content1) p.2 && strContains (pyLower content2) p.1))

/-- Priority vocabulary of `_have_different_priorities`. -/
def priorityIndicators : List String :=
  ["critical", "urgent", "important", "optional", "secondary"]

/-- Methodology vocabulary of `_have_different_approaches`. -/
def approachKeywords : List String :=
  ["top-down", "bottom-up", "iterative", "waterfall", "agile",
   "proactive", "reactive", "preventive", "corrective"]

/-- Strategic vocabulary of `_have_strategic_divergence`. -/
def strategicKeywords : List String :=
  ["long-term", "short-term", "scalable", "maintainable",
   "innovative", "conservative", "aggressive", "defensive"]

/-- First keyword of `kws` found in the lowercased text (the Python code
builds the full match list and compares the first elements). -/
def firstKeywordMatch (kws : List String) (text : String) : Option String :=
  (kws.filter (fun k => strContains (pyLower text) k)).head?

/-- Shared shape of the three first-match comparisons: both texts contain a
vocabulary term and the first matched terms differ. -/
def firstMatchesDiffer (kws : List String) (text1 text2 : String) : Bool :=
  match firstKeywordMatch kws text1, firstKeywordMatch kws text2 with
  | some k1, some k2 => k1 ≠ k2
  | _, _ => false

/-- `_have_different_priorities` over the two contents. -/
def haveDifferentPriorities (content1 content2 : String) : Bool :=
  firstMatchesDiffer priorityIndicators content1 content2

/-- `_have_different_approaches` over the two reasoning texts. -/
def haveDifferentApproaches (reasoning1 reasoning2 : String) : Bool :=
  firstMatchesDiffer approachKeywords reasoning1 reasoning2

/-- `_have_strategic_divergence` over the two contents. -/
def haveStrategicDivergence (content1 content2 : String) : Bool :=
  firstMatchesDiffer strategicKeywords content1 content2

/-- A conflict record `(conflict_type, role_a, role_b, description)`. -/
abbrev ConflictRec := ConflictType × AgentRole × AgentRole × String

/-- `_analyze_conflict_between_agents`: the four category tests in source
order, each appending its fixed description. -/
def analyzeConflictBetweenAgents (t1 t2 : AgentThought) : List (ConflictType × String) :=
  (if areOppositePositions t1.content t2.content then
    [(ConflictType.factual_disagreement, "Opposite conclusions")] else []) ++
  (if haveDifferentPriorities t1.content t2.content then
    [(ConflictType.priority_disagreement, "Different priority levels")] else []) ++
  (if haveDifferentApproaches t1.reasoning t2.reasoning then
    [(ConflictType.methodological_conflict, "Different methodological approaches")] else []) ++
  (if haveStrategicDivergence t1.content t2.content then
    [(ConflictType.strategic_divergence, "Different strategic directions")] else [])

/-- `ConflictDetector.detect_conflicts`: ordered pairwise scan `i < j` over
the position map in insertion order. -/
def detectConflicts : ThoughtMap → List ConflictRec
  | [] => []
  | (r1, t1) :: rest =>
      (rest.map (fun p =>
        (analyzeConflictBetweenAgents t1 p.2).map
          (fun c => (c.1, r1, p.1, c.2)))).flatten ++ detectConflicts rest

/-! ## ConflictResolver (lines 1088-1262)

The Python resolver mutates the `AgentThought` objects in place inside a
copy of the dict; the embedding applies the same updates functionally, entry
by entry, reading the current value of each involved thought before each
per-pair resolution exactly as the sequential Python loop does. -/

/-- Rationale string appended by `_resolve_factual_disagreement` to the
losing side. -/
def favorAnnotatedText (winner : AgentRole) : String :=
  " [Conflict resolved in favor of " ++ winner.value ++ " due to stronger evidence]"

/-- Rationale string appended by `_resolve_factual_disagreement` to both
sides on an evidence tie. -/
def tieAnnotatedText : String := " [Conflict detected - evidence equally strong]"

/-- Loop body of `_resolve_factual_disagreement` for one conflict pair:
evidence_strength = |evidence| * confidence per side; the strictly weaker
side loses half of its confidence and has its reasoning annotated; a tie
multiplies both confidences by 0.8 and annotates both. -/
def resolveFactualPair (m : ThoughtMap) (r1 r2 : AgentRole) : ThoughtMap :=
  match findThought m r1, findThought m r2 with
  | some t1, some t2 =>
    let evidence1Strength := (t1.evidence.length : ℚ) * t1.confidence
    let evidence2Strength := (t2.evidence.length : ℚ) * t2.confidence
    if evidence1Strength > evidence2Strength then
      updateThought m r2 { t2 with confidence := t2.confidence * (1/2),
                                   reasoning := t2.reasoning ++ favorAnnotatedText r1 }
    else if evidence2Strength > evidence1Strength then
      updateThought m r1 { t1 with confidence := t1.confidence * (1/2),
                                   reasoning := t1.reasoning ++ favorAnnotatedText r2 }
    else
      updateThought
        (updateThought m r1 { t1 with confidence := t1.confidence * (4/5),
                                      reasoning := t1.reasoning ++ tieAnnotatedText })
        r2 { t2 with confidence := t2.confidence * (4/5),
                     reasoning := t2.reasoning ++ tieAnnotatedText }
  | _, _ => m

/-- Loop body of `_resolve_priority_disagreement`: both reasonings replaced
by the concatenated compromise text, both confidences scaled by 0.9. -/
def resolvePriorityPair (m : ThoughtMap) (r1 r2 : AgentRole) : ThoughtMap :=
  match findThought m r1, findThought m r2 with
  | some t1, some t2 =>
    let compromisedReasoning :=
      "Priority consideration: " ++ t1.reasoning ++ " | Alternative perspective: " ++ t2.reasoning
    updateThought
      (updateThought m r1 { t1 with reasoning := compromisedReasoning,
                                    confidence := t1.confidence * (9/10) })
      r2 { t2 with reasoning := compromisedReasoning,
                   confidence := t2.confidence * (9/10) }
  | _, _ => m

/-- Loop body of `_resolve_methodological_conflict`: both positions replaced
by one hybrid thought attributed to the queen coordinator, with averaged and
0.9-scaled confidence and deduplicated evidence union.  Python deduplicates
with `list(set(...))`, whose iteration order is hash-dependent; the model
keeps first occurrences. -/
def resolveMethodologicalPair (m : ThoughtMap) (r1 r2 : AgentRole) : ThoughtMap :=
  match findThought m r1, findThought m r2 with
  | some t1, some t2 =>
    let hybridThought : AgentThought :=
      { agent_role := .queen_coordinator,
        content := "Integrated solution: " ++ t1.content ++ " + " ++ t2.content ++
          ". This hybrid approach addresses multiple perspectives.",
        reasoning := "Hybrid approach combining " ++ t1.reasoning ++ " with " ++ t2.reasoning ++
          ". This integrated methodology leverages strengths of both approaches.",
        confidence := (t1.confidence + t2.confidence) / 2 * (9/10),
        evidence := (t1.evidence ++ t2.evidence).eraseDups }
    updateThought (updateThought m r1 hybridThought) r2 hybridThought
  | _, _ => m

/-- Loop body of `_resolve_strategic_divergence`: both positions rewritten in
place with the balanced synthesis text, both confidences scaled by 0.85. -/
def resolveStrategicPair (m : ThoughtMap) (r1 r2 : AgentRole) : ThoughtMap :=
  match findThought m r1, findThought m r2 with
  | some t1, some t2 =>
    let balancedReasoning :=
      "Strategic balance: " ++ t1.reasoning ++ " balanced with " ++ t2.reasoning ++
      ". This approach considers both strategic perspectives for optimal outcome."
    let balancedContent :=
      "Strategic synthesis: " ++ t1.content ++ " integrated with " ++ t2.content ++
      ". Provides balanced approach considering multiple strategic factors."
    updateThought
      (updateThought m r1 { t1 with reasoning := balancedReasoning,
                                    content := balancedContent,
                                    confidence := t1.confidence * (17/20) })
      r2 { t2 with reasoning := balancedReasoning,
                   content := balancedContent,
                   confidence := t2.confidence * (17/20) }
  | _, _ => m

/-- Fold one type-specific resolver over the conflict pairs of that type. -/
def resolvePairsWith (resolvePair : ThoughtMap → AgentRole → AgentRole → ThoughtMap)
    (m : ThoughtMap) (pairs : List (AgentRole × AgentRole)) : ThoughtMap :=
  pairs.foldl (fun acc p => resolvePair acc p.1 p.2) m

/-- Dispatch of `resolve_conflicts` on one conflict type; the elif chain
handles only the four types below and leaves the others untouched. -/
def resolveOneType (m : ThoughtMap) (ct : ConflictType)
    (pairs : List (AgentRole × AgentRole)) : ThoughtMap :=
  match ct with
  | .factual_disagreement => resolvePairsWith resolveFactualPair m pairs
  | .priority_disagreement => resolvePairsWith resolvePriorityPair m pairs
  | .methodological_conflict => resolvePairsWith resolveMethodologicalPair m pairs
  | .strategic_divergence => resolvePairsWith resolveStrategicPair m pairs
  | _ => m

/-- `ConflictResolver.resolve_conflicts`: group the conflicts by type (a
defaultdict keeps types in first-occurrence order and pairs in list order)
and apply the type-specific resolutions in that order. -/
def resolveConflicts (m : ThoughtMap) (conflicts : List ConflictRec) : ThoughtMap :=
  if conflicts = [] then m
  else
    let typesInOrder := (conflicts.map (fun c => c.1)).eraseDups
    typesInOrder.foldl (fun acc ct =>
      resolveOneType acc ct
        ((conflicts.filter (fun c => c.1 = ct)).map (fun c => (c.2.1, c.2.2.1)))) m

/-! ## Agreement score and landscape analysis (lines 287-364) -/

/-- `_text_similarity`: Jaccard similarity of the lowercased word sets. -/
def textSimilarity (text1 text2 : String) : ℚ :=
  let words1 := (pyWords (pyLower text1)).eraseDups
  let words2 := (pyWords (pyLower text2)).eraseDups
  let inter := (words1.filter (fun w => words2.contains w)).length
  let union := (words1 ++ words2).eraseDups.length
  if union > 0 then (inter : ℚ) / union else 0

/-- All similarities of position pairs `i < j` in order. -/
def pairwiseSimilarities : List String → List ℚ
  | [] => []
  | p :: rest => rest.map (textSimilarity p) ++ pairwiseSimilarities rest

/-- `_calculate_agreement_score`: 1.0 for fewer than two positions, else the
mean pairwise similarity. -/
def calculateAgreementScore (positions : List String) : ℚ :=
  if positions.length < 2 then 1
  else
    let sims := pairwiseSimilarities positions
    if sims.length > 0 then sims.sum / sims.length else 0

/-- Population variance `np.var` (0 on the empty list, standing in for the
nan that numpy produces there; no embedded consumer reads that case). -/
def varQ (xs : List ℚ) : ℚ := meanQ (xs.map (fun x => (x - meanQ xs) ^ 2))

/-- Result dict of `_analyze_consensus_landscape` on its only non-raising
path.  `evidence_scores` holds the dict that the Python code stores under
the key evidence_quality. -/
structure ConsensusLandscape where
  agreement_score : ℚ
  confidence_variance : ℚ
  avg_confidence : ℚ
  conflicts_detected : ℕ
  evidence_scores : List (AgentRole × ℚ)
  recommended_strategy : ConsensusStrategy
  recommended_voting : VotingMethod
deriving DecidableEq, Repr

/-- Error raised by comparing a Python dict with a float. -/
def typeErrorDictFloat : String := "TypeError: dict compared with float"

/-- Error raised by the ConsensusDeliberation constructor call at line 233:
the dataclass requires a `voting_record` argument (declared without a
default at line 113) that the call does not pass. -/
def typeErrorMissingVotingRecord : String :=
  "TypeError: ConsensusDeliberation missing required argument voting_record"

/-- `_analyze_consensus_landscape` (lines 287-333).  Rule 1 of the strategy
selector (agreement > 0.8 and no conflicts) selects Weighted Voting.  When
rule 1 fails the code evaluates `elif evidence_quality > 0.7`, but
`evidence_quality` is the dict returned by `evaluate_evidence_quality`, and
comparing a dict with a float raises TypeError in Python 3, so rules 2-5
are unreachable and every non-rule-1 input raises.  `np.mean`/`np.var` of an
empty confidence list produce nan; the model stores 0 there, a value no
embedded consumer reads (rule 1 always matches the empty map). -/
def analyzeConsensusLandscape (thoughts : ThoughtMap) : Except String ConsensusLandscape :=
  let positions := thoughts.map (fun p => p.2.content)
  let confidences := thoughts.map (fun p => p.2.confidence)
  let agreement := calculateAgreementScore positions
  let conflicts := detectConflicts thoughts
  let scores := evaluateEvidenceQuality (thoughts.map (fun p => (p.1, p.2.evidence)))
  if agreement > 4/5 ∧ conflicts.length = 0 then
    .ok { agreement_score := agreement,
          confidence_variance := varQ confidences,
          avg_confidence := meanQ confidences,
          conflicts_detected := conflicts.length,
          evidence_scores := scores,
          recommended_strategy := .weighted_voting,
          recommended_voting := .weighted_consensus }
  else
    .error typeErrorDictFloat

/-! ## Fallback consensus (lines 893-938) -/

/-- `_fallback_consensus`: aggregate of the confidence > 0.5 positions when
any exist, otherwise the first stored position at half its confidence,
otherwise the empty-contributor sentinel at confidence 0.1.  The single
position branch reports the thought's own `agent_role` field, the other
branches report dict keys. -/
def fallbackConsensus (thoughts : ThoughtMap) : CollectiveInsight :=
  let highConfidence := thoughts.filter (fun p => p.2.confidence > 1/2)
  if highConfidence ≠ [] then
    { contributing_agents := rolesOf highConfidence,
      consensus_level := .plurality,
      confidence_score := meanQ (highConfidence.map (fun p => p.2.confidence)),
      synthesis_method := "fallback_consensus" }
  else
    match thoughts with
    | anyEntry :: _ =>
      { contributing_agents := [anyEntry.2.agent_role],
        consensus_level := .specialist_override,
        confidence_score := anyEntry.2.confidence * (1/2),
        synthesis_method := "ultimate_fallback" }
    | [] =>
      { contributing_agents := [],
        consensus_level := .specialist_override,
        confidence_score := 1/10,
        synthesis_method := "emergency_fallback" }

/-! ## Weighted voting consensus (lines 366-421, 744-784) -/

/-- `_initialize_specialist_weights` authority table (lines 193-206). -/
def specialistWeights : AgentRole → ℚ
  | .queen_coordinator => 1
  | .security_specialist => 19/20
  | .code_architect => 9/10
  | .performance_optimizer => 17/20
  | .testing_quality => 17/20
  | .integration_expert => 4/5
  | .ui_ux_designer => 3/4
  | .data_analytics => 3/4
  | .documentation_tech_writer => 7/10
  | .innovation_strategist => 7/10

/-- Combined voting weight of one participant: 0.4 x specialist authority +
0.3 x evidence score + 0.3 x confidence.  The `.get(role, 0.5)` defaults in
the source are dead: the weight table covers every role and the evidence
registry is keyed by the same dict, whose unique keys make the lookup return
this entry's own score. -/
def votingWeightOf (p : AgentRole × AgentThought) : ℚ :=
  specialistWeights p.1 * (2/5) + perAgentEvidenceScore p.2.evidence * (3/10) +
    p.2.confidence * (3/10)

/-- Voting weights of `_weighted_voting_consensus`, normalized to sum 1 when
the raw total is positive. -/
def normalizedVotingWeights (thoughts : ThoughtMap) : List (AgentRole × ℚ) :=
  let weights := thoughts.map (fun p => (p.1, votingWeightOf p))
  let total := (weights.map Prod.snd).sum
  if total > 0 then weights.map (fun w => (w.1, w.2 / total)) else weights

/-- `_determine_consensus_level_from_weights` (lines 764-784). -/
def determineConsensusLevelFromWeights (weights : List (AgentRole × ℚ))
    (totalAgents : ℕ) : ConsensusLevel :=
  if weights = [] then .plurality
  else
    let maxWeight := listMaxQ (weights.map Prod.snd)
    let totalWeight := (weights.map Prod.snd).sum
    let dominanceFactor := if totalWeight > 0 then maxWeight / totalWeight else 0
    if dominanceFactor > 7/10 then .specialist_override
    else if dominanceFactor > 1/2 then .majority_super
    else if (totalAgents : ℚ) * (7/10) ≤ (weights.length : ℚ) then .majority_strong
    else if (totalAgents : ℚ) * (3/5) ≤ (weights.length : ℚ) then .majority_simple
    else .plurality

/-- `_weighted_voting_consensus`: normalized weights, positions with weight
above zero, confidence `min(1, mean confidence * 1.1)`, contributors are all
dict keys; falls back to `_fallback_consensus` when no position carries
positive weight. -/
def weightedVotingConsensus (thoughts : ThoughtMap) : CollectiveInsight :=
  let weights := normalizedVotingWeights thoughts
  let weightedPositions := weights.filter (fun w => w.2 > 0)
  if weightedPositions ≠ [] then
    { contributing_agents := rolesOf thoughts,
      consensus_level := determineConsensusLevelFromWeights weights thoughts.length,
      confidence_score := min 1 (meanQ (thoughts.map (fun p => p.2.confidence)) * (11/10)),
      synthesis_method := "weighted_voting" }
  else fallbackConsensus thoughts

/-! ## Specialist authority consensus (lines 423-466, 714-742) -/

/-- Keyword table of `_determine_lead_specialist`. -/
def specialistKeywords : List (AgentRole × List String) :=
  [(.security_specialist, ["security", "auth", "encryption", "vulnerability"]),
   (.code_architect, ["architecture", "structure", "design", "framework"]),
   (.performance_optimizer, ["performance", "optimization", "speed", "efficiency"]),
   (.testing_quality, ["test", "quality", "validation", "verification"]),
   (.integration_expert, ["integration", "api", "connect", "system"]),
   (.ui_ux_designer, ["ui", "ux", "interface", "user"]),
   (.data_analytics, ["data", "analytics", "metrics", "analysis"])]

/-- Python `max(d, key=d.get)`: first key reaching the maximal score in
iteration order (a later equal score does not displace the current best). -/
def argmaxFirstRole (scores : List (AgentRole × ℚ)) : Option AgentRole :=
  match scores with
  | [] => none
  | s :: rest => some (rest.foldl (fun best c => if c.2 > best.2 then c else best) s).1

/-- `_determine_lead_specialist`: keyword hits in the task text times the
candidate's confidence; first maximum wins; queen coordinator when no
keyword specialist contributed a thought. -/
def determineLeadSpecialist (taskDescription : String) (thoughts : ThoughtMap) : AgentRole :=
  let taskContent := pyLower taskDescription
  let scores := specialistKeywords.filterMap (fun p =>
    match findThought thoughts p.1 with
    | some t =>
        some (p.1, ((p.2.filter (fun k => strContains taskContent k)).length : ℚ) * t.confidence)
    | none => none)
  match argmaxFirstRole scores with
  | some r => r
  | none => .queen_coordinator

/-- `_specialist_authority_consensus`: the lead specialist decides, other
participants with confidence > 0.6 support, confidence is the lead
confidence scaled by 0.9, participants below confidence 0.4 are reported as
conflicting views; falls back to weighted voting when the lead holds no
position. -/
def specialistAuthorityConsensus (taskDescription : String) (thoughts : ThoughtMap) :
    CollectiveInsight :=
  let lead := determineLeadSpecialist taskDescription thoughts
  match findThought thoughts lead with
  | some specialistThought =>
    let supporting := thoughts.filter (fun p => p.1 ≠ lead ∧ p.2.confidence > 3/5)
    { contributing_agents := lead :: rolesOf supporting,
      consensus_level := .specialist_override,
      confidence_score := specialistThought.confidence * (9/10),
      conflicting_views := (thoughts.filter (fun p => p.1 ≠ lead ∧ p.2.confidence < 2/5)).map
        (fun p => (p.1, p.2.content)),
      synthesis_method := "specialist_authority" }
  | none => weightedVotingConsensus thoughts

/-! ## Evidence-based consensus (lines 468-509) -/

/-- `_evidence_based_consensus`: participants whose evidence score exceeds
0.6 qualify; confidence is the mean evidence score over all participants
scaled by 1.2 and capped; super-majority with at least 7 qualifiers, else
strong majority; falls back to weighted voting when nobody qualifies. -/
def evidenceBasedConsensus (thoughts : ThoughtMap) : CollectiveInsight :=
  let scores := evaluateEvidenceQuality (thoughts.map (fun p => (p.1, p.2.evidence)))
  let qualified := thoughts.filter (fun p => perAgentEvidenceScore p.2.evidence > 3/5)
  if qualified ≠ [] then
    { contributing_agents := rolesOf qualified,
      consensus_level := if 7 ≤ qualified.length then .majority_super else .majority_strong,
      confidence_score := min 1 (meanQ (scores.map Prod.snd) * (6/5)),
      synthesis_method := "evidence_based" }
  else weightedVotingConsensus thoughts

/-! ## Collaborative synthesis consensus (lines 511-546) -/

/-- Modelled from the spec: `_calculate_collaboration_score` is called at
line 535 but missing from src (the only definition of that name in the
repository belongs to an unrelated class with a different argument type).
Spec section 4.4 allows any monotonic function of participation; modelled as
the participation count scaled by the ten-agent roster size, clamped, a
value in [0,1]. -/
def calculateCollaborationScore (buildingBlocks : ThoughtMap) : ℚ :=
  min 1 ((buildingBlocks.length : ℚ) / 10)

/-- `_collaborative_synthesis_consensus`: building blocks are the positions
with confidence > 0.5; confidence is `min(1, collaboration * 0.9 + mean
block confidence * 0.1)`; contributors are all dict keys.  When no block
qualifies the missing collaboration helper leaves the source behavior
undefined (numpy returns nan for the empty mean); per spec section 4.4 every
strategy fails soft to Weighted Voting on the unfiltered set when its
preferred subset is empty, and the model follows the spec there. -/
def collaborativeSynthesisConsensus (thoughts : ThoughtMap) : CollectiveInsight :=
  let buildingBlocks := thoughts.filter (fun p => p.2.confidence > 1/2)
  if buildingBlocks ≠ [] then
    { contributing_agents := rolesOf thoughts,
      consensus_level := .majority_strong,
      confidence_score := min 1 (calculateCollaborationScore buildingBlocks * (9/10) +
        meanQ (buildingBlocks.map (fun p => p.2.confidence)) * (1/10)),
      synthesis_method := "collaborative_synthesis" }
  else weightedVotingConsensus thoughts

/-! ## Iterative refinement consensus (lines 548-588) -/

/-- Modelled from the spec: `_create_refinement_proposals` is missing from
src; section 4.4 has each round propose refinements.  Modelled as one
proposed confidence target per participant, clamped to [0,1] per the
section 3 invariant. -/
def createRefinementProposals (thoughts : ThoughtMap) : List ℚ :=
  thoughts.map (fun p => clamp01 p.2.confidence)

/-- Modelled from the spec: `_select_best_proposal` is missing from src; the
best (highest) proposed target is applied. -/
def selectBestProposal (proposals : List ℚ) : ℚ := listMaxQ proposals

/-- Modelled from the spec: `_update_thoughts_from_proposal` is missing from
src; section 4.4 updates the positions toward the applied proposal and the
section 3 invariant keeps every confidence clamped to [0,1]; the participant
set is unchanged. -/
def updateThoughtsFromProposal (thoughts : ThoughtMap) (best : ℚ) : ThoughtMap :=
  thoughts.map (fun p => (p.1, { p.2 with confidence := clamp01 ((p.2.confidence + best) / 2) }))

/-- Minimum of a nonempty list (0 on the empty list). -/
def listMinQ : List ℚ → ℚ
  | [] => 0
  | x :: xs => xs.foldl min x

/-- Modelled from the spec: `_check_convergence` is missing from src;
section 4.4 stops early when round-over-round divergence falls below an
epsilon, modelled as the confidence spread falling below 1/100. -/
def checkConvergence (thoughts : ThoughtMap) : Bool :=
  let confs := thoughts.map (fun p => p.2.confidence)
  listMaxQ confs - listMinQ confs < 1/100

/-- The bounded refinement loop of `_iterative_refinement_consensus`: up to
`n` rounds, each proposing, applying the best proposal and stopping early on
convergence. -/
def iterativeRounds : ℕ → ThoughtMap → ThoughtMap
  | 0, m => m
  | n + 1, m =>
    let proposals := createRefinementProposals m
    let refined := if proposals = [] then m
      else updateThoughtsFromProposal m (selectBestProposal proposals)
    if checkConvergence refined then refined else iterativeRounds n refined

/-- `_iterative_refinement_consensus`: at most 3 rounds, final confidence is
the mean of the last-round confidences, simple-majority level.  On the empty
map the missing round helpers leave the source behavior undefined (the final
`np.mean` of an empty list is nan); per spec section 4.4 the strategy fails
soft to Weighted Voting there. -/
def iterativeRefinementConsensus (thoughts : ThoughtMap) : CollectiveInsight :=
  if thoughts = [] then weightedVotingConsensus thoughts
  else
    let finalThoughts := iterativeRounds 3 thoughts
    { contributing_agents := rolesOf finalThoughts,
      consensus_level := .majority_simple,
      confidence_score := meanQ (finalThoughts.map (fun p => p.2.confidence)),
      synthesis_method := "iterative_refinement" }

/-! ## Conflict resolution consensus (lines 590-615) -/

/-- Modelled from the spec: `_build_consensus_from_resolved_conflicts` is
missing from src; section 4.4 says the Conflict Resolution strategy falls
back to Collaborative Synthesis on the resolved positions. -/
def buildConsensusFromResolvedConflicts (resolved : ThoughtMap) : CollectiveInsight :=
  collaborativeSynthesisConsensus resolved

/-- `_conflict_resolution_consensus`: detect, resolve, then synthesize from
the resolved positions; with no conflicts (or an empty resolution result)
use collaborative synthesis on the original positions. -/
def conflictResolutionConsensus (thoughts : ThoughtMap) : CollectiveInsight :=
  let conflicts := detectConflicts thoughts
  if conflicts ≠ [] then
    let resolved := resolveConflicts thoughts conflicts
    if resolved ≠ [] then buildConsensusFromResolvedConflicts resolved
    else collaborativeSynthesisConsensus thoughts
  else collaborativeSynthesisConsensus thoughts

/-! ## Emergent agreement consensus (lines 617-657) -/

/-- Ordered pairs `i < j` of map entries. -/
def rolePairs : ThoughtMap → List ((AgentRole × AgentThought) × (AgentRole × AgentThought))
  | [] => []
  | p :: rest => rest.map (fun q => (p, q)) ++ rolePairs rest

/-- Modelled from the spec: `_build_agreement_network` is missing from src;
section 4.4 builds an agreement graph whose edges join positions with
similarity above a threshold, modelled as pairwise Jaccard similarity above
1/2. -/
def buildAgreementNetwork (thoughts : ThoughtMap) : List (AgentRole × AgentRole) :=
  ((rolePairs thoughts).filter
    (fun pq => textSimilarity pq.1.2.content pq.2.2.content > 1/2)).map
    (fun pq => (pq.1.1, pq.2.1))

/-- Modelled from the spec: `_emergent_position_update` is missing from src;
section 4.4 nudges each position toward its graph neighbors; the participant
set is unchanged.  Modelled as joining each content with its neighbor
contents. -/
def emergentPositionUpdate (positions : List (AgentRole × String))
    (network : List (AgentRole × AgentRole)) : List (AgentRole × String) :=
  positions.map (fun p =>
    let neighborTexts := positions.filterMap (fun q =>
      if network.contains (p.1, q.1) || network.contains (q.1, p.1) then some q.2 else none)
    (p.1, String.mk ((((p.2 :: neighborTexts).map String.toList).intersperse [' ']).flatten)))

/-- Modelled from the spec: `_check_position_stability` is missing from src;
a round is stable when it changed nothing. -/
def checkPositionStability (older newer : List (AgentRole × String)) : Bool := older == newer

/-- The bounded emergence loop of `_emergent_agreement_consensus`: at most
`n` rounds, keeping the previous positions when a round is stable (the
Python loop breaks before assigning the new positions). -/
def emergentRounds (network : List (AgentRole × AgentRole)) :
    ℕ → List (AgentRole × String) → List (AgentRole × String)
  | 0, positions => positions
  | n + 1, positions =>
    let updated := emergentPositionUpdate positions network
    if checkPositionStability positions updated then positions
    else emergentRounds network n updated

/-- Modelled from the spec: `_calculate_emergence_strength` is missing from
src; section 4.4 derives confidence from graph connectivity, modelled as the
edge count scaled by the ten-agent roster size and clamped, a value in
[0,1]. -/
def calculateEmergenceStrength (network : List (AgentRole × AgentRole)) : ℚ :=
  min 1 ((network.length : ℚ) / 10)

/-- `_emergent_agreement_consensus`: at most 5 nudge rounds over the
agreement network, plurality level, confidence `min(1, strength*0.8+0.2)`. -/
def emergentAgreementConsensus (thoughts : ThoughtMap) : CollectiveInsight :=
  let network := buildAgreementNetwork thoughts
  let finalPositions := emergentRounds network 5 (thoughts.map (fun p => (p.1, p.2.content)))
  { contributing_agents := finalPositions.map Prod.fst,
    consensus_level := .plurality,
    confidence_score := min 1 (calculateEmergenceStrength network * (4/5) + 1/5),
    synthesis_method := "emergent_agreement" }

/-! ## Hybrid adaptive consensus (lines 659-710) -/

/-- `_hybrid_adaptive_consensus`: re-runs the landscape analysis, then picks
sub-strategies from its fields.  The landscape call only returns normally
under selection rule 1, which requires zero detected conflicts, so the
conflict-resolution branch (line 675) is always skipped and line 686
compares `consensus_analysis[evidence_quality]` - the evidence-score dict -
with the float 0.6, raising TypeError.  The strategy therefore never
produces an insight: it propagates the landscape TypeError or raises its
own. -/
def hybridAdaptiveConsensus (thoughts : ThoughtMap) : Except String CollectiveInsight :=
  match analyzeConsensusLandscape thoughts with
  | .error e => .error e
  | .ok _analysis => .error typeErrorDictFloat

/-- `_initialize_consensus_strategies` dispatch (lines 167-178): every
ConsensusStrategy member maps to its strategy method. -/
def runConsensusStrategy (strategy : ConsensusStrategy) (taskDescription : String)
    (thoughts : ThoughtMap) : Except String CollectiveInsight :=
  match strategy with
  | .weighted_voting => .ok (weightedVotingConsensus thoughts)
  | .specialist_authority => .ok (specialistAuthorityConsensus taskDescription thoughts)
  | .evidence_based => .ok (evidenceBasedConsensus thoughts)
  | .collaborative_synthesis => .ok (collaborativeSynthesisConsensus thoughts)
  | .iterative_refinement => .ok (iterativeRefinementConsensus thoughts)
  | .conflict_resolution => .ok (conflictResolutionConsensus thoughts)
  | .emergent_agreement => .ok (emergentAgreementConsensus thoughts)
  | .hybrid_adaptive => hybridAdaptiveConsensus thoughts

/-! ## Quality validation, amplification and the orchestrator (208-285, 815-891) -/

/-- `_validate_consensus_quality` (lines 815-851): its first statement reads
`deliberation.participating_agents`, a field the ConsensusDeliberation
dataclass does not define, so every call raises AttributeError before
computing any quality score. -/
def validateConsensusQuality (_insight : CollectiveInsight) (_thoughts : ThoughtMap) :
    Except String ℚ :=
  .error "AttributeError: ConsensusDeliberation has no attribute participating_agents"

/-- `_amplify_consensus_quality` (lines 853-891): one fixed-confidence (0.8)
validation thought per contributing agent that is both a system agent and a
key of the deliberation position map; when any exist, their mean (0.8)
boosts the confidence by the factor `1 + 0.8*0.1 = 1.08`, capped at 1.0, and
tags the synthesis method; otherwise the insight is returned unchanged. -/
def amplifyConsensusQuality (systemAgents : List AgentRole) (thoughts : ThoughtMap)
    (insight : CollectiveInsight) : CollectiveInsight :=
  let validations := insight.contributing_agents.filter
    (fun r => systemAgents.contains r && (rolesOf thoughts).contains r)
  if validations ≠ [] then
    let validationConfidence : ℚ := 4/5
    { insight with
      confidence_score := min 1 (insight.confidence_score * (1 + validationConfidence * (1/10))),
      synthesis_method := insight.synthesis_method ++ "_amplified" }
  else insight

/-- Observable outcome one `reach_consensus` call would report if a run
ever completed: the returned insight, whether the deliberation was appended
to the permanent `consensus_history` list, and whether its
`deliberation_end` timestamp was set.  No run completes (the deliberation
constructor raises first), so the embedding never builds such a value; the
type is kept as the result type of `reachConsensus`. -/
structure ReachOutcome where
  insight : CollectiveInsight
  historyAppended : Bool
  endTimestampSet : Bool
deriving DecidableEq, Repr

/-- `reach_consensus` (lines 208-285).  The landscape analysis is awaited
at line 227, before the try block, so for every input missing selection
rule 1 its TypeError (dict compared with float) propagates to the caller.
When rule 1 matches, execution reaches the ConsensusDeliberation
constructor call at line 233, which omits the required `voting_record`
field (declared without a default at line 113), so Python raises TypeError
there - still before the try block at line 247.  The try/except/finally of
lines 247-285 (strategy execution, quality validation, amplification, the
history append and the fallback return) is therefore unreachable on every
input, and the call always raises: no fallback value is returned, no
deliberation_end is set, and nothing is appended to consensus_history. -/
def reachConsensus (_systemAgents : List AgentRole) (_taskDescription : String)
    (thoughts : ThoughtMap) (_strategyOverride : Option ConsensusStrategy) :
    Except String ReachOutcome :=
  match analyzeConsensusLandscape thoughts with
  | .error e => .error e
  | .ok _analysis => .error typeErrorMissingVotingRecord

/-! ## Voting methods (lines 180-191)

`_initialize_voting_methods` builds a dispatch table mapping every
VotingMethod member to a `self._*_voting` method, but none of those eight
methods is defined anywhere in the repository; only this dispatch table
declares them.  They are modelled from spec section 4.5 as pure aggregation
functions over ranked ballots: each agent submits an ordered preference list
of options, the head being its top choice. -/

/-- A ranked ballot per agent: preference list, head = top choice. -/
abbrev Ballot := List (AgentRole × List String)

/-- Top choice of every agent that ranked at least one option. -/
def topChoices (ballots : Ballot) : List String := ballots.filterMap (fun b => b.2.head?)

/-- All distinct options appearing on some ballot, in first-seen order. -/
def ballotOptions (ballots : Ballot) : List String :=
  ((ballots.map Prod.snd).flatten).eraseDups

/-- Number of votes for an option in a vote list. -/
def countVotes (opt : String) (votes : List String) : ℕ :=
  (votes.filter (fun v => v = opt)).length

/-- First option maximizing a score, none when no option exists. -/
def argmaxOption (options : List String) (score : String → ℚ) : Option String :=
  match options with
  | [] => none
  | o :: rest => some (rest.foldl (fun best c => if score c > score best then c else best) o)

/-- Modelled from the spec: simple majority - an option endorsed as top
choice by more than half of the agents (50% + 1 of an even count). -/
def simpleMajorityVoting (ballots : Ballot) : Option String :=
  (ballotOptions ballots).find? (fun o => 2 * countVotes o (topChoices ballots) > ballots.length)

/-- Modelled from the spec: super majority - top choice of at least two
thirds of the agents. -/
def superMajorityVoting (ballots : Ballot) : Option String :=
  (ballotOptions ballots).find? (fun o => 3 * countVotes o (topChoices ballots) ≥ 2 * ballots.length)

/-- Modelled from the spec: qualified majority - top choice of at least
three quarters of the agents. -/
def qualifiedMajorityVoting (ballots : Ballot) : Option String :=
  (ballotOptions ballots).find? (fun o => 4 * countVotes o (topChoices ballots) ≥ 3 * ballots.length)

/-- Modelled from the spec: unanimous - every agent names the same top
choice. -/
def unanimousVoting (ballots : Ballot) : Option String :=
  match topChoices ballots with
  | [] => none
  | c :: rest =>
      if (topChoices ballots).length = ballots.length ∧ rest.all (fun x => x = c) then some c
      else none

/-- Modelled from the spec: weighted consensus - option whose top-choice
supporters carry the greatest total specialist authority weight. -/
def weightedConsensusVoting (ballots : Ballot) : Option String :=
  argmaxOption (ballotOptions ballots) (fun o =>
    ((ballots.filter (fun b => b.2.head? = some o)).map (fun b => specialistWeights b.1)).sum)

/-- Pairwise preference count: how many agents rank `o` strictly before `q`
(an unranked option counts as ranked last). -/
def prefersCount (ballots : Ballot) (o q : String) : ℕ :=
  (ballots.filter (fun b => b.2.indexOf o < b.2.indexOf q)).length

/-- Modelled from the spec: Condorcet - an option beating every other
option in pairwise comparison. -/
def condorcetVoting (ballots : Ballot) : Option String :=
  (ballotOptions ballots).find? (fun o =>
    (ballotOptions ballots).all (fun q => q = o ∨ prefersCount ballots o q > prefersCount ballots q o))

/-- Borda points an option collects from one ballot of length m: m-1 for the
head down to 0 for the tail; 0 when unranked. -/
def bordaPoints (ranking : List String) (o : String) : ℕ :=
  ranking.length - 1 - ranking.indexOf o

/-- Modelled from the spec: Borda count - option with the greatest total
Borda points. -/
def bordaCountVoting (ballots : Ballot) : Option String :=
  argmaxOption (ballotOptions ballots)
    (fun o => ((ballots.map (fun b => bordaPoints b.2 o)).sum : ℚ))

/-- Modelled from the spec: approval voting - option approved (ranked
anywhere) by the most agents. -/
def approvalVoting (ballots : Ballot) : Option String :=
  argmaxOption (ballotOptions ballots)
    (fun o => ((ballots.filter (fun b => b.2.contains o)).length : ℚ))

/-- The dispatch table of `_initialize_voting_methods`: every VotingMethod
member maps to its aggregation function. -/
def votingMethodTable (method : VotingMethod) : Ballot → Option String :=
  match method with
  | .simple_majority => simpleMajorityVoting
  | .super_majority => superMajorityVoting
  | .qualified_majority => qualifiedMajorityVoting
  | .unanimous => unanimousVoting
  | .weighted_consensus => weightedConsensusVoting
  | .condorcet => condorcetVoting
  | .borda_count => bordaCountVoting
  | .approval_voting => approvalVoting

/-! ## Spec-as-written restatements

Definitions that transcribe claim sentences word for word, used to compare
claims with the source embedding where they disagree. -/

/-- The per-item evidence score exactly as the spec sentence states it:
`min(1.0, 0.5 + min(1, length/100)*0.2 + 0.1*keyword hits)`, with no
special case for an empty item. -/
def specItemScore (evidence : String) : ℚ :=
  min 1 (1/2 + min 1 ((evidence.length : ℚ) / 100) * (1/5) + (specificityCount evidence : ℚ) * (1/10))

/-- The per-participant evidence score exactly as the spec sentence states
it: 0.0 for an empty list, otherwise the mean of the spec per-item scores. -/
def specAgentEvidenceScore (evidenceList : List String) : ℚ :=
  if evidenceList = [] then 0
  else meanQ (evidenceList.map specItemScore)

/-! ## Concrete inputs used by the claim theorems -/

/-- A position map with two word-disjoint contents: the agreement score is 0,
so selection rule 1 fails and the landscape analysis reaches the dict/float
comparison. -/
def c1DivergingMap : ThoughtMap :=
  [(.queen_coordinator,
    { agent_role := .queen_coordinator, content := "alpha", reasoning := "",
      confidence := 9/10, evidence := [] }),
   (.data_analytics,
    { agent_role := .data_analytics, content := "beta", reasoning := "",
      confidence := 9/10, evidence := [] })]

/-- Agreeing input for rule 1 of the selector: one position, agreement 1. -/
def c4AgreeingMap : ThoughtMap :=
  [(.queen_coordinator,
    { agent_role := .queen_coordinator, content := "proceed", reasoning := "",
      confidence := 9/10, evidence := [] })]

/-- Input missing rule 1 (two conflicting positions with shared words, so a
factual conflict is detected). -/
def c4ConflictingMap : ThoughtMap :=
  [(.queen_coordinator,
    { agent_role := .queen_coordinator, content := "implement the cache", reasoning := "",
      confidence := 9/10, evidence := [] }),
   (.security_specialist,
    { agent_role := .security_specialist, content := "avoid the cache", reasoning := "",
      confidence := 9/10, evidence := [] })]

/-- Insight and deliberation context for the amplifier counterexample. -/
def c8Insight : CollectiveInsight :=
  { contributing_agents := [.queen_coordinator],
    consensus_level := .plurality,
    confidence_score := 1/2,
    synthesis_method := "weighted_voting" }

/-- One-position deliberation map naming the contributing agent. -/
def c8Map : ThoughtMap :=
  [(.queen_coordinator,
    { agent_role := .queen_coordinator, content := "proceed", reasoning := "",
      confidence := 1/2, evidence := [] })]

/-- Ballot used to exercise the three named voting functions. -/
def c10Ballot : Ballot :=
  [(.queen_coordinator, ["adopt", "reject"]),
   (.code_architect, ["adopt"]),
   (.security_specialist, ["reject", "adopt"])]

/-- Scenario position P1 of the factual-disagreement claim: implement X,
confidence 0.9, two evidence items containing data / metric. -/
def factualP1 : AgentThought :=
  { agent_role := .queen_coordinator, content := "implement X", reasoning := "r1",
    confidence := 9/10, evidence := ["data sample", "metric sample"] }

/-- Scenario position P2: avoid X, confidence 0.6, no evidence. -/
def factualP2 : AgentThought :=
  { agent_role := .data_analytics, content := "avoid X", reasoning := "r2",
    confidence := 3/5, evidence := [] }

/-- The two-position scenario map of the factual-disagreement claim. -/
def factualScenarioMap : ThoughtMap :=
  [(.queen_coordinator, factualP1), (.data_analytics, factualP2)]

/-- A map whose stored thought carries an agent_role field different from
its dict key, with confidence at most 0.5 so the fallback takes its
single-position branch. -/
def c3MismatchMap : ThoughtMap :=
  [(.performance_optimizer,
    { agent_role := .security_specialist, content := "low confidence stance", reasoning := "",
      confidence := 2/5, evidence := [] })]

/-- Single consistent position used to witness the subset statements. -/
def c3WitnessMap : ThoughtMap :=
  [(.queen_coordinator,
    { agent_role := .queen_coordinator, content := "go ahead", reasoning := "",
      confidence := 4/5, evidence := [] })]

/-- Single position with confidence in [0,1] used to witness the bounds. -/
def c2WitnessMap : ThoughtMap :=
  [(.queen_coordinator,
    { agent_role := .queen_coordinator, content := "proceed carefully", reasoning := "",
      confidence := 9/10, evidence := ["data point"] })]

/-- Single-position deliberation input for the history claim. -/
def c7Map : ThoughtMap :=
  [(.queen_coordinator,
    { agent_role := .queen_coordinator, content := "solo position", reasoning := "",
      confidence := 3/4, evidence := [] })]

/-- One position above the 0.5 fallback threshold. -/
def c9HighMap : ThoughtMap :=
  [(.queen_coordinator,
    { agent_role := .queen_coordinator, content := "confident stance", reasoning := "",
      confidence := 4/5, evidence := [] })]

/-- One entry below the 0.5 fallback threshold, key and role consistent. -/
def c9LowEntry : AgentRole × AgentThought :=
  (.code_architect,
   { agent_role := .code_architect, content := "tentative stance", reasoning := "",
     confidence := 2/5, evidence := [] })

/-- Map holding only c9LowEntry. -/
def c9LowMap : ThoughtMap := [c9LowEntry]

/-! ## Helper lemmas -/

/-- Bounded-confidence hypothesis: every stored confidence lies in [0,1]
(the data-model invariant of spec section 3). -/
def ConfBounded (m : ThoughtMap) : Prop :=
  ∀ p ∈ m, 0 ≤ p.2.confidence ∧ p.2.confidence ≤ 1

instance decidableConfBounded (m : ThoughtMap) : Decidable (ConfBounded m) :=
  inferInstanceAs (Decidable (∀ p ∈ m, 0 ≤ p.2.confidence ∧ p.2.confidence ≤ 1))

theorem meanQ_nonneg {l : List ℚ} (h : ∀ x ∈ l, 0 ≤ x) : 0 ≤ meanQ l :=
  div_nonneg (List.sum_nonneg h) (by positivity)

theorem meanQ_le_one {l : List ℚ} (h : ∀ x ∈ l, x ≤ 1) : meanQ l ≤ 1 := by
  rcases eq_or_ne l [] with rfl | hne
  · simp [meanQ]
  · have hlen : (0 : ℚ) < l.length := by
      have := List.length_pos.mpr hne
      exact_mod_cast this
    have hsum : l.sum ≤ (l.length : ℚ) := by
      have := List.sum_le_card_nsmul l 1 h
      simpa using this
    exact (div_le_one hlen).mpr hsum

theorem meanQ_mem_unit {l : List ℚ} (h : ∀ x ∈ l, 0 ≤ x ∧ x ≤ 1) :
    0 ≤ meanQ l ∧ meanQ l ≤ 1 :=
  ⟨meanQ_nonneg fun x hx => (h x hx).1, meanQ_le_one fun x hx => (h x hx).2⟩

theorem clamp01_mem_unit (x : ℚ) : 0 ≤ clamp01 x ∧ clamp01 x ≤ 1 := by
  unfold clamp01
  constructor
  · exact le_min (by norm_num) (le_max_left 0 x)
  · exact min_le_left 1 _

theorem evaluateSingleEvidence_mem_unit (e : String) :
    0 ≤ evaluateSingleEvidence e ∧ evaluateSingleEvidence e ≤ 1 := by
  unfold evaluateSingleEvidence
  split
  · norm_num
  · constructor
    · apply le_min (by norm_num)
      have h1 : (0 : ℚ) ≤ min 1 ((e.length : ℚ) / 100) := le_min (by norm_num) (by positivity)
      positivity
    · exact min_le_left 1 _

theorem perAgentEvidenceScore_mem_unit (l : List String) :
    0 ≤ perAgentEvidenceScore l ∧ perAgentEvidenceScore l ≤ 1 := by
  unfold perAgentEvidenceScore
  split
  · norm_num
  · refine meanQ_mem_unit ?_
    intro x hx
    rcases List.mem_map.mp hx with ⟨e, _, rfl⟩
    exact evaluateSingleEvidence_mem_unit e

theorem findThought_some_mem {m : ThoughtMap} {r : AgentRole} {t : AgentThought}
    (h : findThought m r = some t) : (r, t) ∈ m := by
  induction m with
  | nil => cases h
  | cons p rest ih =>
    obtain ⟨a, b⟩ := p
    by_cases hp : a = r
    · subst hp
      rw [findThought, if_pos rfl] at h
      cases h
      exact List.mem_cons_self _ _
    · rw [findThought, if_neg hp] at h
      exact List.mem_cons_of_mem _ (ih h)

theorem findThought_updateThought_self {m : ThoughtMap} {r : AgentRole}
    (t : AgentThought) :
    findThought (updateThought m r t) r = (findThought m r).map (fun _ => t) := by
  induction m with
  | nil => rfl
  | cons p rest ih =>
    by_cases hp : p.1 = r
    · simp [updateThought, findThought, hp]
    · simpa [updateThought, findThought, hp] using ih

theorem findThought_updateThought_other {m : ThoughtMap} {r r' : AgentRole}
    (t : AgentThought) (h : r' ≠ r) :
    findThought (updateThought m r t) r' = findThought m r' := by
  induction m with
  | nil => rfl
  | cons p rest ih =>
    by_cases hp : p.1 = r
    · have hp' : ¬ p.1 = r' := by rw [hp]; exact fun hr => h hr.symm
      simpa [updateThought, findThought, hp, hp', Ne.symm h] using ih
    · by_cases hq : p.1 = r'
      · simp [updateThought, findThought, hp, hq, h]
      · simpa [updateThought, findThought, hp, hq] using ih

theorem rolesOf_updateThought (m : ThoughtMap) (r : AgentRole) (t : AgentThought) :
    rolesOf (updateThought m r t) = rolesOf m := by
  unfold rolesOf updateThought
  rw [List.map_map]
  apply List.map_congr_left
  intro p _
  by_cases hp : p.1 = r <;> simp [hp]

theorem confBounded_updateThought {m : ThoughtMap} {r : AgentRole} {t : AgentThought}
    (hm : ConfBounded m) (ht : 0 ≤ t.confidence ∧ t.confidence ≤ 1) :
    ConfBounded (updateThought m r t) := by
  intro p hp
  rcases List.mem_map.mp hp with ⟨q, hq, rfl⟩
  by_cases h : q.1 = r <;> simp [h] <;> [exact ht; exact hm q hq]

theorem foldl_preserves_prop {α : Type} {P : ThoughtMap → Prop} {f : ThoughtMap → α → ThoughtMap}
    (hf : ∀ m x, P m → P (f m x)) :
    ∀ (l : List α) (m : ThoughtMap), P m → P (l.foldl f m) := by
  intro l
  induction l with
  | nil => intro m hm; exact hm
  | cons x rest ih => intro m hm; exact ih _ (hf m x hm)

theorem foldl_preserves_roles {α : Type} {f : ThoughtMap → α → ThoughtMap}
    (hf : ∀ m x, rolesOf (f m x) = rolesOf m) :
    ∀ (l : List α) (m : ThoughtMap), rolesOf (l.foldl f m) = rolesOf m := by
  intro l
  induction l with
  | nil => intro m; rfl
  | cons x rest ih => intro m; rw [List.foldl_cons, ih, hf]

theorem unit_mul_half {c : ℚ} (h : 0 ≤ c ∧ c ≤ 1) :
    0 ≤ c * (1/2) ∧ c * (1/2) ≤ 1 := by constructor <;> nlinarith [h.1, h.2]

theorem unit_mul_scale {c k : ℚ} (h : 0 ≤ c ∧ c ≤ 1) (hk : 0 ≤ k ∧ k ≤ 1) :
    0 ≤ c * k ∧ c * k ≤ 1 := by
  constructor
  · exact mul_nonneg h.1 hk.1
  · nlinarith [h.1, h.2, hk.1, hk.2]

theorem confBounded_resolveFactualPair {m : ThoughtMap} (r1 r2 : AgentRole)
    (hm : ConfBounded m) : ConfBounded (resolveFactualPair m r1 r2) := by
  cases h1 : findThought m r1 with
  | none => simpa only [resolveFactualPair, h1] using hm
  | some t1 =>
    cases h2 : findThought m r2 with
    | none => simpa only [resolveFactualPair, h1, h2] using hm
    | some t2 =>
      have b1 : 0 <= t1.confidence /\ t1.confidence <= 1 := hm _ (findThought_some_mem h1)
      have b2 : 0 <= t2.confidence /\ t2.confidence <= 1 := hm _ (findThought_some_mem h2)
      simp only [resolveFactualPair, h1, h2]
      split
      · exact confBounded_updateThought hm (unit_mul_half b2)
      · split
        · exact confBounded_updateThought hm (unit_mul_half b1)
        · exact confBounded_updateThought
            (confBounded_updateThought hm (unit_mul_scale b1 (by norm_num)))
            (unit_mul_scale b2 (by norm_num))

theorem confBounded_resolvePriorityPair {m : ThoughtMap} (r1 r2 : AgentRole)
    (hm : ConfBounded m) : ConfBounded (resolvePriorityPair m r1 r2) := by
  cases h1 : findThought m r1 with
  | none => simpa only [resolvePriorityPair, h1] using hm
  | some t1 =>
    cases h2 : findThought m r2 with
    | none => simpa only [resolvePriorityPair, h1, h2] using hm
    | some t2 =>
      have b1 : 0 <= t1.confidence /\ t1.confidence <= 1 := hm _ (findThought_some_mem h1)
      have b2 : 0 <= t2.confidence /\ t2.confidence <= 1 := hm _ (findThought_some_mem h2)
      simp only [resolvePriorityPair, h1, h2]
      exact confBounded_updateThought
        (confBounded_updateThought hm (unit_mul_scale b1 (by norm_num)))
        (unit_mul_scale b2 (by norm_num))

theorem confBounded_resolveMethodologicalPair {m : ThoughtMap} (r1 r2 : AgentRole)
    (hm : ConfBounded m) : ConfBounded (resolveMethodologicalPair m r1 r2) := by
  cases h1 : findThought m r1 with
  | none => simpa only [resolveMethodologicalPair, h1] using hm
  | some t1 =>
    cases h2 : findThought m r2 with
    | none => simpa only [resolveMethodologicalPair, h1, h2] using hm
    | some t2 =>
      have b1 : 0 <= t1.confidence /\ t1.confidence <= 1 := hm _ (findThought_some_mem h1)
      have b2 : 0 <= t2.confidence /\ t2.confidence <= 1 := hm _ (findThought_some_mem h2)
      have hb : 0 ≤ (t1.confidence + t2.confidence) / 2 * (9/10) ∧
          (t1.confidence + t2.confidence) / 2 * (9/10) ≤ 1 := by
        constructor <;> nlinarith [b1.1, b1.2, b2.1, b2.2]
      simp only [resolveMethodologicalPair, h1, h2]
      exact confBounded_updateThought (confBounded_updateThought hm hb) hb

theorem confBounded_resolveStrategicPair {m : ThoughtMap} (r1 r2 : AgentRole)
    (hm : ConfBounded m) : ConfBounded (resolveStrategicPair m r1 r2) := by
  cases h1 : findThought m r1 with
  | none => simpa only [resolveStrategicPair, h1] using hm
  | some t1 =>
    cases h2 : findThought m r2 with
    | none => simpa only [resolveStrategicPair, h1, h2] using hm
    | some t2 =>
      have b1 : 0 <= t1.confidence /\ t1.confidence <= 1 := hm _ (findThought_some_mem h1)
      have b2 : 0 <= t2.confidence /\ t2.confidence <= 1 := hm _ (findThought_some_mem h2)
      simp only [resolveStrategicPair, h1, h2]
      exact confBounded_updateThought
        (confBounded_updateThought hm (unit_mul_scale b1 (by norm_num)))
        (unit_mul_scale b2 (by norm_num))

theorem confBounded_resolveOneType {m : ThoughtMap} (ct : ConflictType)
    (pairs : List (AgentRole × AgentRole)) (hm : ConfBounded m) :
    ConfBounded (resolveOneType m ct pairs) := by
  cases ct with
  | factual_disagreement =>
      exact @foldl_preserves_prop (AgentRole × AgentRole) ConfBounded
        (fun acc p => resolveFactualPair acc p.1 p.2)
        (fun m p h => confBounded_resolveFactualPair p.1 p.2 h) pairs m hm
  | priority_disagreement =>
      exact @foldl_preserves_prop (AgentRole × AgentRole) ConfBounded
        (fun acc p => resolvePriorityPair acc p.1 p.2)
        (fun m p h => confBounded_resolvePriorityPair p.1 p.2 h) pairs m hm
  | methodological_conflict =>
      exact @foldl_preserves_prop (AgentRole × AgentRole) ConfBounded
        (fun acc p => resolveMethodologicalPair acc p.1 p.2)
        (fun m p h => confBounded_resolveMethodologicalPair p.1 p.2 h) pairs m hm
  | strategic_divergence =>
      exact @foldl_preserves_prop (AgentRole × AgentRole) ConfBounded
        (fun acc p => resolveStrategicPair acc p.1 p.2)
        (fun m p h => confBounded_resolveStrategicPair p.1 p.2 h) pairs m hm
  | resource_allocation => exact hm
  | expertise_claim => exact hm
  | value_conflict => exact hm

theorem confBounded_resolveConflicts {m : ThoughtMap} (conflicts : List ConflictRec)
    (hm : ConfBounded m) : ConfBounded (resolveConflicts m conflicts) := by
  unfold resolveConflicts
  split
  · exact hm
  · exact foldl_preserves_prop (fun m ct h => confBounded_resolveOneType ct _ h) _ m hm

theorem rolesOf_resolveFactualPair (m : ThoughtMap) (r1 r2 : AgentRole) :
    rolesOf (resolveFactualPair m r1 r2) = rolesOf m := by
  cases h1 : findThought m r1 <;> cases h2 : findThought m r2 <;>
    simp only [resolveFactualPair, h1, h2] <;> try rfl
  split
  · rw [rolesOf_updateThought]
  · split
    · rw [rolesOf_updateThought]
    · rw [rolesOf_updateThought, rolesOf_updateThought]

theorem rolesOf_resolvePriorityPair (m : ThoughtMap) (r1 r2 : AgentRole) :
    rolesOf (resolvePriorityPair m r1 r2) = rolesOf m := by
  cases h1 : findThought m r1 <;> cases h2 : findThought m r2 <;>
    simp only [resolvePriorityPair, h1, h2] <;> try rfl
  rw [rolesOf_updateThought, rolesOf_updateThought]

theorem rolesOf_resolveMethodologicalPair (m : ThoughtMap) (r1 r2 : AgentRole) :
    rolesOf (resolveMethodologicalPair m r1 r2) = rolesOf m := by
  cases h1 : findThought m r1 <;> cases h2 : findThought m r2 <;>
    simp only [resolveMethodologicalPair, h1, h2] <;> try rfl
  rw [rolesOf_updateThought, rolesOf_updateThought]

theorem rolesOf_resolveStrategicPair (m : ThoughtMap) (r1 r2 : AgentRole) :
    rolesOf (resolveStrategicPair m r1 r2) = rolesOf m := by
  cases h1 : findThought m r1 <;> cases h2 : findThought m r2 <;>
    simp only [resolveStrategicPair, h1, h2] <;> try rfl
  rw [rolesOf_updateThought, rolesOf_updateThought]

theorem rolesOf_resolveOneType (m : ThoughtMap) (ct : ConflictType)
    (pairs : List (AgentRole × AgentRole)) :
    rolesOf (resolveOneType m ct pairs) = rolesOf m := by
  cases ct with
  | factual_disagreement =>
      exact @foldl_preserves_roles (AgentRole × AgentRole)
        (fun acc p => resolveFactualPair acc p.1 p.2) (fun m p => rolesOf_resolveFactualPair m p.1 p.2) pairs m
  | priority_disagreement =>
      exact @foldl_preserves_roles (AgentRole × AgentRole)
        (fun acc p => resolvePriorityPair acc p.1 p.2) (fun m p => rolesOf_resolvePriorityPair m p.1 p.2) pairs m
  | methodological_conflict =>
      exact @foldl_preserves_roles (AgentRole × AgentRole)
        (fun acc p => resolveMethodologicalPair acc p.1 p.2)
        (fun m p => rolesOf_resolveMethodologicalPair m p.1 p.2) pairs m
  | strategic_divergence =>
      exact @foldl_preserves_roles (AgentRole × AgentRole)
        (fun acc p => resolveStrategicPair acc p.1 p.2) (fun m p => rolesOf_resolveStrategicPair m p.1 p.2) pairs m
  | resource_allocation => rfl
  | expertise_claim => rfl
  | value_conflict => rfl

theorem rolesOf_resolveConflicts (m : ThoughtMap) (conflicts : List ConflictRec) :
    rolesOf (resolveConflicts m conflicts) = rolesOf m := by
  unfold resolveConflicts
  split
  · rfl
  · exact foldl_preserves_roles (fun m ct => rolesOf_resolveOneType m ct _) _ m

theorem specialistWeights_ge (r : AgentRole) : 7/10 ≤ specialistWeights r := by
  cases r <;> norm_num [specialistWeights]

theorem votingWeightOf_pos {m : ThoughtMap} {p : AgentRole × AgentThought}
    (hm : ConfBounded m) (hp : p ∈ m) : 0 < votingWeightOf p := by
  have hsw := specialistWeights_ge p.1
  have hev := (perAgentEvidenceScore_mem_unit p.2.evidence).1
  have hc := (hm p hp).1
  unfold votingWeightOf
  nlinarith

theorem wv_filter_ne_nil {m : ThoughtMap} (hm : ConfBounded m) (hne : m ≠ []) :
    (normalizedVotingWeights m).filter (fun w => w.2 > 0) ≠ [] := by
  obtain ⟨p0, rest, rfl⟩ : ∃ p0 rest, m = p0 :: rest := by
    cases m with
    | nil => exact absurd rfl hne
    | cons a l => exact ⟨a, l, rfl⟩
  set weights := ((p0 :: rest).map (fun p => (p.1, votingWeightOf p))) with hw
  have hall : ∀ x ∈ (weights.map Prod.snd), 0 < x := by
    intro x hx
    rcases List.mem_map.mp hx with ⟨q, hq, rfl⟩
    rcases List.mem_map.mp hq with ⟨p, hp, rfl⟩
    exact votingWeightOf_pos hm hp
  have htot : 0 < (weights.map Prod.snd).sum :=
    List.sum_pos _ hall (by simp [hw])
  have hmem0 : (p0.1, votingWeightOf p0) ∈ weights := by simp [hw]
  unfold normalizedVotingWeights
  rw [← hw, if_pos htot]
  have hmem : (p0.1, votingWeightOf p0 / (weights.map Prod.snd).sum) ∈
      weights.map (fun w => (w.1, w.2 / (weights.map Prod.snd).sum)) :=
    List.mem_map.mpr ⟨_, hmem0, rfl⟩
  have hpos : 0 < votingWeightOf p0 / (weights.map Prod.snd).sum :=
    div_pos (votingWeightOf_pos hm (List.mem_cons_self _ _)) htot
  refine List.ne_nil_of_mem (List.mem_filter.mpr ⟨hmem, ?_⟩)
  simpa using hpos

theorem fallbackConsensus_conf_bounds {m : ThoughtMap} (hm : ConfBounded m) :
    0 ≤ (fallbackConsensus m).confidence_score ∧
      (fallbackConsensus m).confidence_score ≤ 1 := by
  simp only [fallbackConsensus]
  split
  · refine meanQ_mem_unit ?_
    intro x hx
    rcases List.mem_map.mp hx with ⟨p, hp, rfl⟩
    exact hm p (List.mem_of_mem_filter hp)
  · split
    · rename_i p rest
      exact unit_mul_half (hm _ (List.mem_cons_self _ _))
    · norm_num

theorem weightedVotingConsensus_conf_bounds {m : ThoughtMap} (hm : ConfBounded m) :
    0 ≤ (weightedVotingConsensus m).confidence_score ∧
      (weightedVotingConsensus m).confidence_score ≤ 1 := by
  simp only [weightedVotingConsensus]
  split
  · have hmn : 0 ≤ meanQ (m.map (fun p => p.2.confidence)) := by
      refine meanQ_nonneg ?_
      intro x hx
      rcases List.mem_map.mp hx with ⟨p, hp, rfl⟩
      exact (hm p hp).1
    constructor
    · refine le_min (by norm_num) ?_
      positivity
    · exact min_le_left 1 _
  · exact fallbackConsensus_conf_bounds hm

theorem weightedVotingConsensus_contrib_subset {m : ThoughtMap} (hm : ConfBounded m) :
    (weightedVotingConsensus m).contributing_agents ⊆ rolesOf m := by
  rcases eq_or_ne m [] with rfl | hne
  · have hnw : normalizedVotingWeights ([] : ThoughtMap) = [] := by
      simp only [normalizedVotingWeights]
      split <;> rfl
    intro r hr
    simp only [weightedVotingConsensus, hnw, List.filter_nil] at hr
    rw [if_neg (by simp)] at hr
    simp only [fallbackConsensus, List.filter_nil] at hr
    rw [if_neg (by simp)] at hr
    simp at hr
  · unfold weightedVotingConsensus
    rw [if_pos (by simpa using wv_filter_ne_nil hm hne)]
    exact fun r hr => hr



theorem rolesOf_filter_subset (f : AgentRole × AgentThought → Bool) (m : ThoughtMap) :
    rolesOf (m.filter f) ⊆ rolesOf m := by
  intro r hr
  rcases List.mem_map.mp hr with ⟨p, hp, rfl⟩
  exact List.mem_map.mpr ⟨p, List.mem_of_mem_filter hp, rfl⟩

theorem fallbackConsensus_contrib_subset {m : ThoughtMap}
    (hkey : ∀ p ∈ m, p.2.agent_role = p.1) :
    (fallbackConsensus m).contributing_agents ⊆ rolesOf m := by
  simp only [fallbackConsensus]
  split
  · exact rolesOf_filter_subset _ _
  · cases m with
    | nil =>
      intro r hr
      simp at hr
    | cons p rest =>
      intro r hr
      have hrr : r = p.2.agent_role := by simpa using hr
      rw [hrr, hkey p (List.mem_cons_self _ _)]
      exact List.mem_map.mpr ⟨p, List.mem_cons_self _ _, rfl⟩

theorem specialistAuthority_conf_bounds {m : ThoughtMap} (taskDescription : String)
    (hm : ConfBounded m) :
    0 ≤ (specialistAuthorityConsensus taskDescription m).confidence_score ∧
      (specialistAuthorityConsensus taskDescription m).confidence_score ≤ 1 := by
  cases hf : findThought m (determineLeadSpecialist taskDescription m) with
  | none =>
    simp only [specialistAuthorityConsensus, hf]
    exact weightedVotingConsensus_conf_bounds hm
  | some t =>
    simp only [specialistAuthorityConsensus, hf]
    exact unit_mul_scale (hm _ (findThought_some_mem hf)) (by norm_num)

theorem specialistAuthority_contrib_subset {m : ThoughtMap} (taskDescription : String)
    (hm : ConfBounded m) :
    (specialistAuthorityConsensus taskDescription m).contributing_agents ⊆ rolesOf m := by
  cases hf : findThought m (determineLeadSpecialist taskDescription m) with
  | none =>
    simp only [specialistAuthorityConsensus, hf]
    exact weightedVotingConsensus_contrib_subset hm
  | some t =>
    simp only [specialistAuthorityConsensus, hf]
    intro r hr
    rcases List.mem_cons.mp hr with rfl | hr'
    · exact List.mem_map.mpr ⟨_, findThought_some_mem hf, rfl⟩
    · exact rolesOf_filter_subset _ m hr'

theorem evidenceScores_mem_unit (m : ThoughtMap) :
    ∀ x ∈ (evaluateEvidenceQuality (m.map (fun p => (p.1, p.2.evidence)))).map Prod.snd,
      0 ≤ x ∧ x ≤ 1 := by
  intro x hx
  simp only [evaluateEvidenceQuality, List.map_map] at hx
  rcases List.mem_map.mp hx with ⟨p, _, rfl⟩
  exact perAgentEvidenceScore_mem_unit _

theorem evidenceBased_conf_bounds {m : ThoughtMap} (hm : ConfBounded m) :
    0 ≤ (evidenceBasedConsensus m).confidence_score ∧
      (evidenceBasedConsensus m).confidence_score ≤ 1 := by
  simp only [evidenceBasedConsensus]
  split
  · have h0 := meanQ_mem_unit (evidenceScores_mem_unit m)
    constructor
    · refine le_min (by norm_num) ?_
      nlinarith [h0.1]
    · exact min_le_left 1 _
  · exact weightedVotingConsensus_conf_bounds hm

theorem evidenceBased_contrib_subset {m : ThoughtMap} (hm : ConfBounded m) :
    (evidenceBasedConsensus m).contributing_agents ⊆ rolesOf m := by
  simp only [evidenceBasedConsensus]
  split
  · exact rolesOf_filter_subset _ _
  · exact weightedVotingConsensus_contrib_subset hm

theorem collaborationScore_mem_unit (blocks : ThoughtMap) :
    0 ≤ calculateCollaborationScore blocks ∧ calculateCollaborationScore blocks ≤ 1 := by
  unfold calculateCollaborationScore
  exact ⟨le_min (by norm_num) (by positivity), min_le_left 1 _⟩

theorem collaborativeSynthesis_conf_bounds {m : ThoughtMap} (hm : ConfBounded m) :
    0 ≤ (collaborativeSynthesisConsensus m).confidence_score ∧
      (collaborativeSynthesisConsensus m).confidence_score ≤ 1 := by
  simp only [collaborativeSynthesisConsensus]
  split
  · have hcoll := collaborationScore_mem_unit
      (m.filter (fun p => p.2.confidence > 1/2))
    have hmean : 0 ≤ meanQ ((m.filter (fun p => p.2.confidence > 1/2)).map
        (fun p => p.2.confidence)) := by
      refine meanQ_nonneg ?_
      intro x hx
      rcases List.mem_map.mp hx with ⟨p, hp, rfl⟩
      exact (hm p (List.mem_of_mem_filter hp)).1
    constructor
    · refine le_min (by norm_num) ?_
      nlinarith [hcoll.1]
    · exact min_le_left 1 _
  · exact weightedVotingConsensus_conf_bounds hm

theorem collaborativeSynthesis_contrib_subset {m : ThoughtMap} (hm : ConfBounded m) :
    (collaborativeSynthesisConsensus m).contributing_agents ⊆ rolesOf m := by
  simp only [collaborativeSynthesisConsensus]
  split
  · exact fun r hr => hr
  · exact weightedVotingConsensus_contrib_subset hm

theorem rolesOf_updateThoughtsFromProposal (m : ThoughtMap) (best : ℚ) :
    rolesOf (updateThoughtsFromProposal m best) = rolesOf m := by
  simp [updateThoughtsFromProposal, rolesOf, List.map_map]

theorem confBounded_updateThoughtsFromProposal (m : ThoughtMap) (best : ℚ) :
    ConfBounded (updateThoughtsFromProposal m best) := by
  intro p hp
  rcases List.mem_map.mp hp with ⟨q, _, rfl⟩
  exact clamp01_mem_unit _

theorem rolesOf_iterativeRounds : ∀ (n : ℕ) (m : ThoughtMap),
    rolesOf (iterativeRounds n m) = rolesOf m := by
  intro n
  induction n with
  | zero => intro m; rfl
  | succ k ih =>
    intro m
    simp only [iterativeRounds]
    split
    · split
      · rfl
      · exact ih m
    · split
      · exact rolesOf_updateThoughtsFromProposal m _
      · rw [ih, rolesOf_updateThoughtsFromProposal]

theorem confBounded_iterativeRounds : ∀ (n : ℕ) (m : ThoughtMap),
    ConfBounded m → ConfBounded (iterativeRounds n m) := by
  intro n
  induction n with
  | zero => intro m hm; exact hm
  | succ k ih =>
    intro m hm
    simp only [iterativeRounds]
    split
    · split
      · exact hm
      · exact ih m hm
    · split
      · exact confBounded_updateThoughtsFromProposal m _
      · exact ih _ (confBounded_updateThoughtsFromProposal m _)

theorem iterativeRefinement_conf_bounds {m : ThoughtMap} (hm : ConfBounded m) :
    0 ≤ (iterativeRefinementConsensus m).confidence_score ∧
      (iterativeRefinementConsensus m).confidence_score ≤ 1 := by
  simp only [iterativeRefinementConsensus]
  split
  · exact weightedVotingConsensus_conf_bounds hm
  · refine meanQ_mem_unit ?_
    intro x hx
    rcases List.mem_map.mp hx with ⟨p, hp, rfl⟩
    exact confBounded_iterativeRounds 3 m hm p hp

theorem iterativeRefinement_contrib_subset {m : ThoughtMap} (hm : ConfBounded m) :
    (iterativeRefinementConsensus m).contributing_agents ⊆ rolesOf m := by
  simp only [iterativeRefinementConsensus]
  split
  · exact weightedVotingConsensus_contrib_subset hm
  · rw [show rolesOf (iterativeRounds 3 m) = rolesOf m from rolesOf_iterativeRounds 3 m]
    exact fun r hr => hr

theorem conflictResolution_conf_bounds {m : ThoughtMap} (hm : ConfBounded m) :
    0 ≤ (conflictResolutionConsensus m).confidence_score ∧
      (conflictResolutionConsensus m).confidence_score ≤ 1 := by
  simp only [conflictResolutionConsensus]
  split
  · split
    · exact collaborativeSynthesis_conf_bounds
        (confBounded_resolveConflicts (detectConflicts m) hm)
    · exact collaborativeSynthesis_conf_bounds hm
  · exact collaborativeSynthesis_conf_bounds hm

theorem conflictResolution_contrib_subset {m : ThoughtMap} (hm : ConfBounded m) :
    (conflictResolutionConsensus m).contributing_agents ⊆ rolesOf m := by
  simp only [conflictResolutionConsensus]
  split
  · split
    · have h := collaborativeSynthesis_contrib_subset
        (confBounded_resolveConflicts (detectConflicts m) hm)
      rw [show rolesOf (resolveConflicts m (detectConflicts m)) = rolesOf m from
        rolesOf_resolveConflicts m (detectConflicts m)] at h
      exact h
    · exact collaborativeSynthesis_contrib_subset hm
  · exact collaborativeSynthesis_contrib_subset hm

theorem emergenceStrength_mem_unit (network : List (AgentRole × AgentRole)) :
    0 ≤ calculateEmergenceStrength network ∧ calculateEmergenceStrength network ≤ 1 := by
  unfold calculateEmergenceStrength
  exact ⟨le_min (by norm_num) (by positivity), min_le_left 1 _⟩

theorem emergentAgreement_conf_bounds (m : ThoughtMap) :
    0 ≤ (emergentAgreementConsensus m).confidence_score ∧
      (emergentAgreementConsensus m).confidence_score ≤ 1 := by
  simp only [emergentAgreementConsensus]
  have hs := emergenceStrength_mem_unit (buildAgreementNetwork m)
  constructor
  · refine le_min (by norm_num) ?_
    nlinarith [hs.1]
  · exact min_le_left 1 _

theorem fst_emergentPositionUpdate (positions : List (AgentRole × String))
    (network : List (AgentRole × AgentRole)) :
    (emergentPositionUpdate positions network).map Prod.fst = positions.map Prod.fst := by
  simp [emergentPositionUpdate, List.map_map]

theorem fst_emergentRounds (network : List (AgentRole × AgentRole)) :
    ∀ (n : ℕ) (positions : List (AgentRole × String)),
      (emergentRounds network n positions).map Prod.fst = positions.map Prod.fst := by
  intro n
  induction n with
  | zero => intro positions; rfl
  | succ k ih =>
    intro positions
    simp only [emergentRounds]
    split
    · rfl
    · rw [ih, fst_emergentPositionUpdate]

theorem emergentAgreement_contrib_subset (m : ThoughtMap) :
    (emergentAgreementConsensus m).contributing_agents ⊆ rolesOf m := by
  simp only [emergentAgreementConsensus]
  rw [fst_emergentRounds]
  rw [show (m.map (fun p => (p.1, p.2.content))).map Prod.fst = rolesOf m by
    simp [rolesOf, List.map_map]]
  exact fun r hr => hr

theorem analyzeConsensusLandscape_error_eq {m : ThoughtMap} {e : String}
    (h : analyzeConsensusLandscape m = Except.error e) : e = typeErrorDictFloat := by
  simp only [analyzeConsensusLandscape] at h
  split at h
  · cases h
  · injection h with h'
    exact h'.symm

theorem hybridAdaptive_isError (m : ThoughtMap) :
    ∃ e, hybridAdaptiveConsensus m = Except.error e := by
  unfold hybridAdaptiveConsensus
  cases analyzeConsensusLandscape m with
  | error e => exact ⟨e, rfl⟩
  | ok a => exact ⟨typeErrorDictFloat, rfl⟩

theorem amplify_conf_bounds (systemAgents : List AgentRole) (thoughts : ThoughtMap)
    {insight : CollectiveInsight}
    (h : 0 ≤ insight.confidence_score ∧ insight.confidence_score ≤ 1) :
    0 ≤ (amplifyConsensusQuality systemAgents thoughts insight).confidence_score ∧
      (amplifyConsensusQuality systemAgents thoughts insight).confidence_score ≤ 1 := by
  simp only [amplifyConsensusQuality]
  split
  · constructor
    · refine le_min (by norm_num) ?_
      nlinarith [h.1]
    · exact min_le_left 1 _
  · exact h

/-! ## Claim verification -/

section ClaimVerification

attribute [local semireducible] Rat.mul Rat.add Rat.sub Rat.inv Rat.ofScientific

/-- C1: the claim says no exception escapes reach_consensus, but the
landscape analysis runs before the try block and raises TypeError (dict
compared with float) for every input that misses selection rule 1 - here a
two-position map with disjoint contents - so the exception propagates to
the caller, whatever strategy override is passed. -/
theorem c1_reachConsensus_exception_escapes :
    ∀ strategyOverride : Option ConsensusStrategy,
      reachConsensus [] "design a system" c1DivergingMap strategyOverride =
        Except.error typeErrorDictFloat := by
  intro strategyOverride
  have h : analyzeConsensusLandscape c1DivergingMap = Except.error typeErrorDictFloat := by
    decide
  simp [reachConsensus, h]

/-- C4: rule 1 of the selector (agreement > 0.8 and zero conflicts) selects
Weighted Voting as claimed, but the claim fails beyond rule 1: whenever
rule 1 misses, the code compares the evidence-score dict with the float 0.7
and raises TypeError, so rules 2-5 never execute and the selector does not
always produce a selection. -/
theorem c4_selector_rule1_then_raises :
    (∀ m : ThoughtMap,
      calculateAgreementScore (m.map (fun p => p.2.content)) > 4/5 →
      (detectConflicts m).length = 0 →
      ∃ l, analyzeConsensusLandscape m = Except.ok l ∧
        l.recommended_strategy = ConsensusStrategy.weighted_voting ∧
        l.recommended_voting = VotingMethod.weighted_consensus) ∧
    (∀ m : ThoughtMap,
      ¬(calculateAgreementScore (m.map (fun p => p.2.content)) > 4/5 ∧
        (detectConflicts m).length = 0) →
      analyzeConsensusLandscape m = Except.error typeErrorDictFloat) ∧
    analyzeConsensusLandscape c4ConflictingMap = Except.error typeErrorDictFloat := by
  refine ⟨?_, ?_, by decide⟩
  · intro m h1 h2
    refine ⟨{ agreement_score := calculateAgreementScore (m.map (fun p => p.2.content)),
              confidence_variance := varQ (m.map (fun p => p.2.confidence)),
              avg_confidence := meanQ (m.map (fun p => p.2.confidence)),
              conflicts_detected := (detectConflicts m).length,
              evidence_scores := evaluateEvidenceQuality (m.map (fun p => (p.1, p.2.evidence))),
              recommended_strategy := ConsensusStrategy.weighted_voting,
              recommended_voting := VotingMethod.weighted_consensus }, ?_, rfl, rfl⟩
    unfold analyzeConsensusLandscape
    rw [if_pos ⟨h1, h2⟩]
  · intro m h
    unfold analyzeConsensusLandscape
    rw [if_neg h]

/-- Witness for c4_selector_rule1_then_raises at concrete inputs. -/
theorem c4_selector_witness :
    (∃ l, analyzeConsensusLandscape c4AgreeingMap = Except.ok l ∧
      l.recommended_strategy = ConsensusStrategy.weighted_voting ∧
      l.recommended_voting = VotingMethod.weighted_consensus) ∧
    analyzeConsensusLandscape c4ConflictingMap = Except.error typeErrorDictFloat :=
  ⟨(c4_selector_rule1_then_raises.1 c4AgreeingMap (by decide) (by decide)),
   (c4_selector_rule1_then_raises.2.1 c4ConflictingMap (by decide))⟩

/-- C6 counterexample: the claim formula gives an empty evidence ITEM the
score min(1, 0.5 + 0 + 0) = 0.5, but `_evaluate_single_evidence` returns
0.0 for a falsy string before the formula runs, so the registry score of
a one-item list holding the empty string is 0, not 0.5. -/
theorem c6_empty_item_counterexample :
    evaluateEvidenceQuality [(AgentRole.queen_coordinator, [""])] =
      [(AgentRole.queen_coordinator, 0)] ∧
    specAgentEvidenceScore [""] = 1/2 ∧
    perAgentEvidenceScore [""] ≠ specAgentEvidenceScore [""] := by
  decide

/-- C6 (amended): the registry evaluator returns 0.0 for an empty list and
otherwise the mean over items of the spec formula, except that an empty
item scores 0.0 instead of 0.5; the per-item score is non-decreasing in
the specificity-keyword count at fixed length, and the evaluator is a pure
function of the registry. -/
theorem c6_evidence_score_amended :
    (∀ registry : List (AgentRole × List String),
      evaluateEvidenceQuality registry = registry.map (fun p => (p.1,
        if p.2 = [] then 0 else meanQ (p.2.map (fun e =>
          if e = "" then 0
          else min 1 (1/2 + min 1 ((e.length : ℚ)/100) * (1/5) +
            (specificityCount e : ℚ) * (1/10))))))) ∧
    (∀ e1 e2 : String, e1 ≠ "" → e2 ≠ "" → e1.length = e2.length →
      specificityCount e1 ≤ specificityCount e2 →
      evaluateSingleEvidence e1 ≤ evaluateSingleEvidence e2) := by
  constructor
  · intro registry
    rfl
  · intro e1 e2 h1 h2 hlen hcount
    simp only [evaluateSingleEvidence, if_neg h1, if_neg h2, hlen]
    refine min_le_min le_rfl ?_
    have : (specificityCount e1 : ℚ) ≤ (specificityCount e2 : ℚ) := by
      exact_mod_cast hcount
    nlinarith

/-- Witness for c6_evidence_score_amended: monotonicity at two concrete
equal-length items, one with a keyword hit. -/
theorem c6_evidence_witness :
    evaluateSingleEvidence "zzzz" ≤ evaluateSingleEvidence "data" :=
  c6_evidence_score_amended.2 "zzzz" "data" (by decide) (by decide) (by decide) (by decide)

/-- C8 counterexample: the amplifier has no already-amplified guard, so a
second call without new evidence boosts the confidence again:
0.5 becomes 0.54 after one call and 0.5832 after two. -/
theorem c8_double_amplification_counterexample :
    (amplifyConsensusQuality [.queen_coordinator] c8Map c8Insight).confidence_score = 27/50 ∧
    (amplifyConsensusQuality [.queen_coordinator] c8Map
      (amplifyConsensusQuality [.queen_coordinator] c8Map c8Insight)).confidence_score =
        729/1250 ∧
    (amplifyConsensusQuality [.queen_coordinator] c8Map c8Insight).confidence_score <
      (amplifyConsensusQuality [.queen_coordinator] c8Map
        (amplifyConsensusQuality [.queen_coordinator] c8Map c8Insight)).confidence_score := by
  decide

/-- C8 (amended): whenever some contributing agent is both a system agent
and a deliberation participant, each amplifier call multiplies the
confidence by 1.08 and caps it at 1.0 - so a second call on the already
amplified insight boosts it again; repeated application is only a fixpoint
at the 1.0 cap, and with no applicable validators the insight is returned
unchanged. -/
theorem c8_amplifier_amended :
    (∀ (systemAgents : List AgentRole) (thoughts : ThoughtMap)
        (insight : CollectiveInsight),
      insight.contributing_agents.filter
        (fun r => systemAgents.contains r && (rolesOf thoughts).contains r) ≠ [] →
      (amplifyConsensusQuality systemAgents thoughts insight).confidence_score =
        min 1 (insight.confidence_score * (27/25)) ∧
      (amplifyConsensusQuality systemAgents thoughts
        (amplifyConsensusQuality systemAgents thoughts insight)).confidence_score =
        min 1 ((min 1 (insight.confidence_score * (27/25))) * (27/25))) ∧
    (∀ (systemAgents : List AgentRole) (thoughts : ThoughtMap)
        (insight : CollectiveInsight),
      insight.contributing_agents.filter
        (fun r => systemAgents.contains r && (rolesOf thoughts).contains r) = [] →
      amplifyConsensusQuality systemAgents thoughts insight = insight) ∧
    (∀ (systemAgents : List AgentRole) (thoughts : ThoughtMap)
        (insight : CollectiveInsight),
      insight.contributing_agents.filter
        (fun r => systemAgents.contains r && (rolesOf thoughts).contains r) ≠ [] →
      (amplifyConsensusQuality systemAgents thoughts insight).confidence_score = 1 →
      (amplifyConsensusQuality systemAgents thoughts
        (amplifyConsensusQuality systemAgents thoughts insight)).confidence_score = 1) := by
  have hcontrib : ∀ (sa : List AgentRole) (th : ThoughtMap) (i : CollectiveInsight),
      (amplifyConsensusQuality sa th i).contributing_agents = i.contributing_agents := by
    intro sa th i
    simp only [amplifyConsensusQuality]
    split <;> rfl
  have hstep : ∀ (sa : List AgentRole) (th : ThoughtMap) (i : CollectiveInsight),
      i.contributing_agents.filter
        (fun r => sa.contains r && (rolesOf th).contains r) ≠ [] →
      (amplifyConsensusQuality sa th i).confidence_score =
        min 1 (i.confidence_score * (27/25)) := by
    intro sa th i h
    simp only [amplifyConsensusQuality]
    rw [if_pos h]
    norm_num
  refine ⟨?_, ?_, ?_⟩
  · intro sa th i h
    refine ⟨hstep sa th i h, ?_⟩
    rw [hstep sa th _ (by rw [hcontrib]; exact h), hstep sa th i h]
  · intro sa th i h
    simp only [amplifyConsensusQuality]
    rw [if_neg (by simpa using h)]
  · intro sa th i h h1
    rw [hstep sa th _ (by rw [hcontrib]; exact h), h1]
    norm_num

/-- Witness for c8_amplifier_amended at the concrete insight. -/
theorem c8_amplifier_witness :
    (amplifyConsensusQuality [.queen_coordinator] c8Map c8Insight).confidence_score =
      min 1 (c8Insight.confidence_score * (27/25)) :=
  (c8_amplifier_amended.1 [.queen_coordinator] c8Map c8Insight (by decide)).1

/-- C10: the dispatch table built at construction maps every VotingMethod
member to a defined aggregation function; the three functions the claim
names at minimum each produce a winner on a concrete ballot. -/
theorem c10_voting_dispatch_total :
    votingMethodTable VotingMethod.simple_majority = simpleMajorityVoting ∧
    votingMethodTable VotingMethod.super_majority = superMajorityVoting ∧
    votingMethodTable VotingMethod.qualified_majority = qualifiedMajorityVoting ∧
    votingMethodTable VotingMethod.unanimous = unanimousVoting ∧
    votingMethodTable VotingMethod.weighted_consensus = weightedConsensusVoting ∧
    votingMethodTable VotingMethod.condorcet = condorcetVoting ∧
    votingMethodTable VotingMethod.borda_count = bordaCountVoting ∧
    votingMethodTable VotingMethod.approval_voting = approvalVoting ∧
    simpleMajorityVoting c10Ballot = some "adopt" ∧
    weightedConsensusVoting c10Ballot = some "adopt" ∧
    bordaCountVoting c10Ballot = some "adopt" := by
  refine ⟨rfl, rfl, rfl, rfl, rfl, rfl, rfl, rfl, ?_, ?_, ?_⟩ <;> decide

/-- C7: the claim says every deliberation is appended to the permanent
consensus history with its end timestamp set whether the pipeline succeeds
or fails; in the code no deliberation is ever recorded, because every
reach_consensus call raises before the try block - inputs missing
selection rule 1 raise at the dict/float comparison of the landscape
analysis (line 312), and rule-1 inputs raise at the ConsensusDeliberation
constructor (line 233 omits the required voting_record field of
line 113) - so consensus_history is never appended to and
deliberation_end is never set. -/
theorem c7_no_deliberation_recorded :
    (∀ (systemAgents : List AgentRole) (taskDescription : String) (thoughts : ThoughtMap)
        (strategyOverride : Option ConsensusStrategy),
      reachConsensus systemAgents taskDescription thoughts strategyOverride =
          Except.error typeErrorDictFloat ∨
        reachConsensus systemAgents taskDescription thoughts strategyOverride =
          Except.error typeErrorMissingVotingRecord) ∧
    reachConsensus [] "record keeping task" c7Map none =
      Except.error typeErrorMissingVotingRecord := by
  constructor
  · intro systemAgents taskDescription thoughts strategyOverride
    unfold reachConsensus
    cases hl : analyzeConsensusLandscape thoughts with
    | error e =>
      left
      rw [analyzeConsensusLandscape_error_eq hl]
    | ok a =>
      right
      rfl
  · decide

/-- C5: for a factual disagreement between two distinct participants the
resolver compares evidence_strength = |evidence| x confidence, halves the
confidence of the strictly weaker side and annotates its reasoning, scales
both confidences by 0.8 and annotates both reasonings on a tie; on the P1
(implement X, 0.9, two evidence items) versus P2 (avoid X, 0.6, none)
scenario exactly one FACTUAL_DISAGREEMENT between P1 and P2 is detected and
resolution leaves P2 at confidence 0.3 with P1 untouched at 0.9. -/
theorem c5_factual_resolution :
    (∀ (m : ThoughtMap) (r1 r2 : AgentRole) (t1 t2 : AgentThought), r1 ≠ r2 →
      findThought m r1 = some t1 → findThought m r2 = some t2 →
      (((t1.evidence.length : ℚ) * t1.confidence > (t2.evidence.length : ℚ) * t2.confidence →
        findThought (resolveFactualPair m r1 r2) r2 =
          some { t2 with confidence := t2.confidence * (1/2),
                         reasoning := t2.reasoning ++ favorAnnotatedText r1 } ∧
        findThought (resolveFactualPair m r1 r2) r1 = some t1) ∧
      ((t2.evidence.length : ℚ) * t2.confidence > (t1.evidence.length : ℚ) * t1.confidence →
        findThought (resolveFactualPair m r1 r2) r1 =
          some { t1 with confidence := t1.confidence * (1/2),
                         reasoning := t1.reasoning ++ favorAnnotatedText r2 } ∧
        findThought (resolveFactualPair m r1 r2) r2 = some t2) ∧
      ((t1.evidence.length : ℚ) * t1.confidence = (t2.evidence.length : ℚ) * t2.confidence →
        findThought (resolveFactualPair m r1 r2) r1 =
          some { t1 with confidence := t1.confidence * (4/5),
                         reasoning := t1.reasoning ++ tieAnnotatedText } ∧
        findThought (resolveFactualPair m r1 r2) r2 =
          some { t2 with confidence := t2.confidence * (4/5),
                         reasoning := t2.reasoning ++ tieAnnotatedText }))) ∧
    detectConflicts factualScenarioMap =
      [(ConflictType.factual_disagreement, AgentRole.queen_coordinator,
        AgentRole.data_analytics, "Opposite conclusions")] ∧
    (findThought (resolveConflicts factualScenarioMap (detectConflicts factualScenarioMap))
        AgentRole.data_analytics).map (fun t => t.confidence) = some (3/10) ∧
    (findThought (resolveConflicts factualScenarioMap (detectConflicts factualScenarioMap))
        AgentRole.queen_coordinator).map (fun t => t.confidence) = some (9/10) := by
  refine ⟨?_, by decide, by decide, by decide⟩
  intro m r1 r2 t1 t2 hne h1 h2
  refine ⟨?_, ?_, ?_⟩
  · intro hgt
    simp only [resolveFactualPair, h1, h2]
    rw [if_pos hgt]
    exact ⟨by rw [findThought_updateThought_self, h2]; rfl,
           by rw [findThought_updateThought_other _ hne]; exact h1⟩
  · intro hgt
    simp only [resolveFactualPair, h1, h2]
    rw [if_neg (lt_asymm hgt), if_pos hgt]
    exact ⟨by rw [findThought_updateThought_self, h1]; rfl,
           by rw [findThought_updateThought_other _ (Ne.symm hne)]; exact h2⟩
  · intro heqs
    simp only [resolveFactualPair, h1, h2]
    rw [if_neg (by rw [heqs]; exact lt_irrefl _),
        if_neg (by rw [heqs]; exact lt_irrefl _)]
    constructor
    · rw [findThought_updateThought_other _ hne, findThought_updateThought_self, h1]
      rfl
    · rw [findThought_updateThought_self, findThought_updateThought_other _ (Ne.symm hne), h2]
      rfl

/-- Witness for c5_factual_resolution: the stronger-evidence case applied to
the scenario pair. -/
theorem c5_factual_witness :
    findThought (resolveFactualPair factualScenarioMap AgentRole.queen_coordinator
        AgentRole.data_analytics) AgentRole.data_analytics =
      some { agent_role := factualP2.agent_role, content := factualP2.content,
             reasoning := factualP2.reasoning ++ favorAnnotatedText AgentRole.queen_coordinator,
             confidence := factualP2.confidence * (1/2),
             evidence := factualP2.evidence } :=
  ((c5_factual_resolution.1 factualScenarioMap AgentRole.queen_coordinator
      AgentRole.data_analytics factualP1 factualP2 (by decide) (by decide) (by decide)).1
    (by decide)).1

/-- C3 counterexample: the fallback single-position branch reports the
stored thought's own agent_role field; when that field differs from the
dict key the contributing agent is not among the position-map keys, so the
claim fails for the fallback consensus as stated. -/
theorem c3_fallback_counterexample :
    (fallbackConsensus c3MismatchMap).contributing_agents = [AgentRole.security_specialist] ∧
    rolesOf c3MismatchMap = [AgentRole.performance_optimizer] ∧
    ¬ (∀ r ∈ (fallbackConsensus c3MismatchMap).contributing_agents, r ∈ rolesOf c3MismatchMap) := by
  decide

/-- C3 (amended): for position maps whose confidences lie in [0,1] (the
data-model invariant), the contributing agents of each of the eight
strategies form a subset of the map keys; the fallback consensus satisfies
the subset property provided each stored thought's agent_role field equals
its key, the hypothesis its single-position branch needs. -/
theorem c3_contributing_subset_amended (taskDescription : String) :
    (∀ m : ThoughtMap, ConfBounded m →
      (weightedVotingConsensus m).contributing_agents ⊆ rolesOf m ∧
      (specialistAuthorityConsensus taskDescription m).contributing_agents ⊆ rolesOf m ∧
      (evidenceBasedConsensus m).contributing_agents ⊆ rolesOf m ∧
      (collaborativeSynthesisConsensus m).contributing_agents ⊆ rolesOf m ∧
      (iterativeRefinementConsensus m).contributing_agents ⊆ rolesOf m ∧
      (conflictResolutionConsensus m).contributing_agents ⊆ rolesOf m ∧
      (emergentAgreementConsensus m).contributing_agents ⊆ rolesOf m ∧
      (∀ insight, hybridAdaptiveConsensus m = Except.ok insight →
        insight.contributing_agents ⊆ rolesOf m)) ∧
    (∀ m : ThoughtMap, (∀ p ∈ m, p.2.agent_role = p.1) →
      (fallbackConsensus m).contributing_agents ⊆ rolesOf m) := by
  constructor
  · intro m hm
    refine ⟨weightedVotingConsensus_contrib_subset hm,
      specialistAuthority_contrib_subset taskDescription hm,
      evidenceBased_contrib_subset hm,
      collaborativeSynthesis_contrib_subset hm,
      iterativeRefinement_contrib_subset hm,
      conflictResolution_contrib_subset hm,
      emergentAgreement_contrib_subset m, ?_⟩
    intro insight h
    rcases hybridAdaptive_isError m with ⟨e, he⟩
    rw [he] at h
    cases h
  · intro m hkey
    exact fallbackConsensus_contrib_subset hkey

/-- Witness for c3_contributing_subset_amended at a consistent map. -/
theorem c3_contributing_witness :
    (weightedVotingConsensus c3WitnessMap).contributing_agents ⊆ rolesOf c3WitnessMap ∧
    (fallbackConsensus c3WitnessMap).contributing_agents ⊆ rolesOf c3WitnessMap :=
  ⟨((c3_contributing_subset_amended "t").1 c3WitnessMap (by decide)).1,
   (c3_contributing_subset_amended "t").2 c3WitnessMap (by decide)⟩

/-- C2: when every stored confidence lies in [0,1], the confidence score of
the insight produced by each of the eight strategies, by the fallback
consensus and by quality amplification lies in [0,1] (the hybrid strategy
never produces an insight - it always raises - so its conjunct holds
vacuously). -/
theorem c2_confidence_in_unit_interval (taskDescription : String) (m : ThoughtMap)
    (hm : ConfBounded m) :
    (0 ≤ (weightedVotingConsensus m).confidence_score ∧
      (weightedVotingConsensus m).confidence_score ≤ 1) ∧
    (0 ≤ (specialistAuthorityConsensus taskDescription m).confidence_score ∧
      (specialistAuthorityConsensus taskDescription m).confidence_score ≤ 1) ∧
    (0 ≤ (evidenceBasedConsensus m).confidence_score ∧
      (evidenceBasedConsensus m).confidence_score ≤ 1) ∧
    (0 ≤ (collaborativeSynthesisConsensus m).confidence_score ∧
      (collaborativeSynthesisConsensus m).confidence_score ≤ 1) ∧
    (0 ≤ (iterativeRefinementConsensus m).confidence_score ∧
      (iterativeRefinementConsensus m).confidence_score ≤ 1) ∧
    (0 ≤ (conflictResolutionConsensus m).confidence_score ∧
      (conflictResolutionConsensus m).confidence_score ≤ 1) ∧
    (0 ≤ (emergentAgreementConsensus m).confidence_score ∧
      (emergentAgreementConsensus m).confidence_score ≤ 1) ∧
    (∀ insight, hybridAdaptiveConsensus m = Except.ok insight →
      0 ≤ insight.confidence_score ∧ insight.confidence_score ≤ 1) ∧
    (0 ≤ (fallbackConsensus m).confidence_score ∧
      (fallbackConsensus m).confidence_score ≤ 1) ∧
    (∀ (systemAgents : List AgentRole) (insight : CollectiveInsight),
      0 ≤ insight.confidence_score → insight.confidence_score ≤ 1 →
      0 ≤ (amplifyConsensusQuality systemAgents m insight).confidence_score ∧
        (amplifyConsensusQuality systemAgents m insight).confidence_score ≤ 1) := by
  refine ⟨weightedVotingConsensus_conf_bounds hm,
    specialistAuthority_conf_bounds taskDescription hm,
    evidenceBased_conf_bounds hm,
    collaborativeSynthesis_conf_bounds hm,
    iterativeRefinement_conf_bounds hm,
    conflictResolution_conf_bounds hm,
    emergentAgreement_conf_bounds m, ?_,
    fallbackConsensus_conf_bounds hm, ?_⟩
  · intro insight h
    rcases hybridAdaptive_isError m with ⟨e, he⟩
    rw [he] at h
    cases h
  · intro systemAgents insight h0 h1
    exact amplify_conf_bounds systemAgents m ⟨h0, h1⟩

/-- Witness for c2_confidence_in_unit_interval at a concrete map. -/
theorem c2_confidence_witness :
    0 ≤ (weightedVotingConsensus c2WitnessMap).confidence_score ∧
      (weightedVotingConsensus c2WitnessMap).confidence_score ≤ 1 :=
  (c2_confidence_in_unit_interval "t" c2WitnessMap (by decide)).1

/-- C9: the claim says reach_consensus on the empty position map yields the
fallback sentinel with no contributors and confidence at most 0.1; in the
code the empty map passes selection rule 1 (agreement 1.0, zero conflicts)
and the call then raises TypeError at the ConsensusDeliberation
constructor (line 233 omits the required voting_record field), which
escapes before the try block, so the sentinel is never returned.  The
fallback consensus itself does match the claim's general description:
aggregate of the confidence > 0.5 positions when any exist, otherwise the
first position at half its confidence, otherwise the empty-contributor
sentinel at confidence 0.1. -/
theorem c9_empty_map_and_fallback :
    (∀ (systemAgents : List AgentRole) (taskDescription : String),
      reachConsensus systemAgents taskDescription [] none =
        Except.error typeErrorMissingVotingRecord ∧
      (fallbackConsensus []).contributing_agents = [] ∧
      (fallbackConsensus []).confidence_score ≤ 1/10) ∧
    (∀ m : ThoughtMap, m.filter (fun p => p.2.confidence > 1/2) ≠ [] →
      fallbackConsensus m =
        { contributing_agents := rolesOf (m.filter (fun p => p.2.confidence > 1/2)),
          consensus_level := ConsensusLevel.plurality,
          confidence_score := meanQ ((m.filter (fun p => p.2.confidence > 1/2)).map
            (fun p => p.2.confidence)),
          conflicting_views := [],
          synthesis_method := "fallback_consensus" }) ∧
    (∀ (m : ThoughtMap) (p : AgentRole × AgentThought) (rest : ThoughtMap),
      m = p :: rest → m.filter (fun q => q.2.confidence > 1/2) = [] →
      fallbackConsensus m =
        { contributing_agents := [p.2.agent_role],
          consensus_level := ConsensusLevel.specialist_override,
          confidence_score := p.2.confidence * (1/2),
          conflicting_views := [],
          synthesis_method := "ultimate_fallback" }) ∧
    fallbackConsensus [] =
      { contributing_agents := [],
        consensus_level := ConsensusLevel.specialist_override,
        confidence_score := 1/10,
        conflicting_views := [],
        synthesis_method := "emergency_fallback" } := by
  refine ⟨?_, ?_, ?_, by decide⟩
  · intro systemAgents taskDescription
    exact ⟨rfl, by decide, by decide⟩
  · intro m hne
    simp only [fallbackConsensus]
    rw [if_pos hne]
  · intro m p rest hm hfil
    subst hm
    simp only [fallbackConsensus]
    rw [hfil, if_neg (by simp)]

/-- Witness for c9_empty_map_and_fallback at concrete one-entry maps. -/
theorem c9_fallback_witness :
    fallbackConsensus c9HighMap =
      { contributing_agents := rolesOf (c9HighMap.filter (fun p => p.2.confidence > 1/2)),
        consensus_level := ConsensusLevel.plurality,
        confidence_score := meanQ ((c9HighMap.filter (fun p => p.2.confidence > 1/2)).map
          (fun p => p.2.confidence)),
        conflicting_views := [],
        synthesis_method := "fallback_consensus" } ∧
    fallbackConsensus c9LowMap =
      { contributing_agents := [c9LowEntry.2.agent_role],
        consensus_level := ConsensusLevel.specialist_override,
        confidence_score := c9LowEntry.2.confidence * (1/2),
        conflicting_views := [],
        synthesis_method := "ultimate_fallback" } :=
  ⟨c9_empty_map_and_fallback.2.1 c9HighMap (by decide),
   c9_empty_map_and_fallback.2.2.1 c9LowMap c9LowEntry [] rfl (by decide)⟩

end ClaimVerification

end QwenSwarm
